import Mathlib

/-! # Finance Calculator Suite: calculation engine and page handlers

A shallow embedding of `src/utils/calculations.js` and of the validation and
submit handlers of the four pages under `src/pages/`.

The calculation functions are given twice.  First in exact arithmetic, over
the rationals (`ℚ`), with a loan tenure a natural number of months, so that
`Math.pow(b, tenureMonths)` is `b ^ tenureMonths`, and with `none` for a
numeric result that JavaScript would report as `NaN` because a table lookup
gave `undefined`: this is the reading of the formulas over the reals.  Then
over IEEE 754 doubles (`JSNumber`, the `_double` functions), where every
operation rounds: this is what the program computes.  A statement said to hold
"in exact arithmetic" is about the first; a statement "in doubles" is about
the second.

The pages keep their fields as text and read them with `parseFloat` and
`parseInt`, which deliver a `JSNumber`.  A page is its React state, and a
handler is a function from state to state.
-/

namespace FinanceCalc

/-! ## EMI -/

/-- The record returned by `calculateEMI`. -/
structure EMIResult where
  emi : ℚ
  totalAmount : ℚ
  totalInterest : ℚ
deriving DecidableEq

/-- `calculateEMI` of `calculations.js`, lines 16-44, read in exact arithmetic
(`calculateEMI_double` below is the same function over doubles). -/
def calculateEMI (principal annualRate : ℚ) (tenureMonths : ℕ) : EMIResult :=
  let monthlyRate := annualRate / 12 / 100
  if monthlyRate = 0 then
    let emi := principal / tenureMonths
    ⟨emi, principal, 0⟩
  else
    let emiNumerator := principal * monthlyRate * (1 + monthlyRate) ^ tenureMonths
    let emiDenominator := (1 + monthlyRate) ^ tenureMonths - 1
    let emi := emiNumerator / emiDenominator
    let totalAmount := emi * tenureMonths
    let totalInterest := totalAmount - principal
    ⟨emi, totalAmount, totalInterest⟩

/-! ## GST -/

/-- The record returned by `calculateGST`. -/
structure GSTResult where
  baseAmount : ℚ
  gstAmount : ℚ
  finalAmount : ℚ
deriving DecidableEq

/-- `calculateGST` of `calculations.js`, lines 55-77, read in exact arithmetic
(`calculateGST_double` below is the same function over doubles).  The mode is
the JavaScript string; only the comparison with `'add'` is made. -/
def calculateGST (amount gstRate : ℚ) (mode : String) : GSTResult :=
  if mode = "add" then
    let gstAmount := (amount * gstRate) / 100
    let finalAmount := amount + gstAmount
    ⟨amount, gstAmount, finalAmount⟩
  else
    let baseAmount := amount / (1 + gstRate / 100)
    let gstAmount := amount - baseAmount
    ⟨baseAmount, gstAmount, amount⟩

/-- The two modes of the specification's `computeGST`. -/
inductive GSTMode where
  | AddGST
  | ExtractGST
deriving DecidableEq

/-- The mode string the pages pass for each mode of the specification. -/
def GSTMode.toJS : GSTMode → String
  | .AddGST => "add"
  | .ExtractGST => "subtract"

/-- Reference definition of GST, written from the specification's section 4.2
(not from the code): it is what `calculateGST` is compared with. -/
def computeGST_reference (amount ratePercent : ℚ) : GSTMode → GSTResult
  | .AddGST =>
      { baseAmount := amount
        gstAmount := amount * ratePercent / 100
        finalAmount := amount + amount * ratePercent / 100 }
  | .ExtractGST =>
      { baseAmount := amount / (1 + ratePercent / 100)
        gstAmount := amount - amount / (1 + ratePercent / 100)
        finalAmount := amount }

/-! ## Currency conversion -/

/-- `CURRENCY_RATES` of `calculations.js`, lines 84-95 (base currency USD). -/
def CURRENCY_RATES : List (String × ℚ) :=
  [ ("USD", 1),
    ("EUR", 0.92),
    ("GBP", 0.79),
    ("INR", 83.12),
    ("JPY", 149.50),
    ("AUD", 1.53),
    ("CAD", 1.36),
    ("CHF", 0.88),
    ("CNY", 7.24),
    ("SGD", 1.34) ]

/-- The property access `CURRENCY_RATES[code]` read as a number: `none` stands
for a value that is not a number (`undefined` for an absent key). -/
def rateOf (code : String) : Option ℚ :=
  CURRENCY_RATES.lookup code

/-- `Object.keys(CURRENCY_RATES)`: the codes present in the table. -/
def currencyCodes : List String :=
  CURRENCY_RATES.map Prod.fst

/-- The record returned by `convertCurrency`.  `convertedAmount` and
`exchangeRate` are `none` when JavaScript arithmetic yields `NaN`. -/
structure CurrencyResult where
  originalAmount : ℚ
  convertedAmount : Option ℚ
  exchangeRate : Option ℚ
  fromCurrency : String
  toCurrency : String
deriving DecidableEq

/-- `convertCurrency` of `calculations.js`, lines 132-147, read in exact
arithmetic (`convertCurrency_double` below is the same function over
doubles).  There is no check of the codes: arithmetic on an absent rate
propagates as `none`. -/
def convertCurrency (amount : ℚ) (fromCurrency toCurrency : String) : CurrencyResult :=
  let amountInUSD : Option ℚ := (rateOf fromCurrency).map (fun r => amount / r)
  let convertedAmount : Option ℚ :=
    amountInUSD.bind (fun a => (rateOf toCurrency).map (fun r => a * r))
  let exchangeRate : Option ℚ :=
    (rateOf toCurrency).bind (fun t => (rateOf fromCurrency).map (fun f => t / f))
  ⟨amount, convertedAmount, exchangeRate, fromCurrency, toCurrency⟩

/-! ## BMI -/

/-- The record returned by `calculateBMI`. -/
structure BMIResult where
  bmi : ℚ
  category : String
  categoryClass : String
deriving DecidableEq

/-- `calculateBMI` of `calculations.js`, lines 157-187, read in exact
arithmetic (`calculateBMI_double` below is the same function over doubles):
weight in kilograms, height in centimetres. -/
def calculateBMI (weight height : ℚ) : BMIResult :=
  let heightInMeters := height / 100
  let bmi := weight / (heightInMeters * heightInMeters)
  if bmi < 18.5 then
    ⟨bmi, "Underweight", "underweight"⟩
  else if bmi ≥ 18.5 ∧ bmi < 25 then
    ⟨bmi, "Normal", "normal"⟩
  else if bmi ≥ 25 ∧ bmi < 30 then
    ⟨bmi, "Overweight", "overweight"⟩
  else
    ⟨bmi, "Obese", "obese"⟩

/-! ## The same functions with every divisor checked

Each `_checked` function repeats its original in exact arithmetic line by
line; a division whose divisor is zero makes the whole call `none`.  They are
used to state that, in exact arithmetic, no division meets a zero divisor. -/

/-- Division that reports a zero divisor as `none`. -/
def checkedDiv (a b : ℚ) : Option ℚ :=
  if b = 0 then none else some (a / b)

/-- Division of operands that may be not-a-number (inner `none`); the outer
`none` reports a zero divisor. -/
def checkedDivNaN (a b : Option ℚ) : Option (Option ℚ) :=
  match b with
  | some d => if d = 0 then none else some (a.map (fun x => x / d))
  | none => some none

/-- `calculateEMI` with every division checked. -/
def calculateEMI_checked (principal annualRate : ℚ) (tenureMonths : ℕ) : Option EMIResult := do
  let monthlyRate ← (checkedDiv annualRate 12).bind (fun x => checkedDiv x 100)
  if monthlyRate = 0 then
    let emi ← checkedDiv principal tenureMonths
    pure ⟨emi, principal, 0⟩
  else
    let emiNumerator := principal * monthlyRate * (1 + monthlyRate) ^ tenureMonths
    let emiDenominator := (1 + monthlyRate) ^ tenureMonths - 1
    let emi ← checkedDiv emiNumerator emiDenominator
    let totalAmount := emi * tenureMonths
    let totalInterest := totalAmount - principal
    pure ⟨emi, totalAmount, totalInterest⟩

/-- `calculateGST` with every division checked. -/
def calculateGST_checked (amount gstRate : ℚ) (mode : String) : Option GSTResult := do
  if mode = "add" then
    let gstAmount ← checkedDiv (amount * gstRate) 100
    let finalAmount := amount + gstAmount
    pure ⟨amount, gstAmount, finalAmount⟩
  else
    let ratio ← checkedDiv gstRate 100
    let baseAmount ← checkedDiv amount (1 + ratio)
    let gstAmount := amount - baseAmount
    pure ⟨baseAmount, gstAmount, amount⟩

/-- `convertCurrency` with every division checked. -/
def convertCurrency_checked (amount : ℚ) (fromCurrency toCurrency : String) :
    Option CurrencyResult := do
  let amountInUSD ← checkedDivNaN (some amount) (rateOf fromCurrency)
  let convertedAmount : Option ℚ :=
    amountInUSD.bind (fun a => (rateOf toCurrency).map (fun r => a * r))
  let exchangeRate ← checkedDivNaN (rateOf toCurrency) (rateOf fromCurrency)
  pure ⟨amount, convertedAmount, exchangeRate, fromCurrency, toCurrency⟩

/-- `calculateBMI` with every division checked. -/
def calculateBMI_checked (weight height : ℚ) : Option BMIResult := do
  let heightInMeters ← checkedDiv height 100
  let bmi ← checkedDiv weight (heightInMeters * heightInMeters)
  if bmi < 18.5 then
    pure ⟨bmi, "Underweight", "underweight"⟩
  else if bmi ≥ 18.5 ∧ bmi < 25 then
    pure ⟨bmi, "Normal", "normal"⟩
  else if bmi ≥ 25 ∧ bmi < 30 then
    pure ⟨bmi, "Overweight", "overweight"⟩
  else
    pure ⟨bmi, "Obese", "obese"⟩

/-! ## JavaScript numbers

A JavaScript number is an IEEE 754 binary64 value.  A finite one is held as the
rational it denotes; `roundToDouble` is the rounding (to nearest, ties to
even) that every arithmetic operation and every conversion from text ends
with.  The two zeros are not told apart: `-0` is `finite 0`.

The pages read their text fields with the built-ins `parseFloat` and
`parseInt`, modelled after ECMAScript (sections `parseFloat ( string )` and
`parseInt ( string, radix )` with the radix left out). -/

/-- A JavaScript number: NaN, an infinity, or a finite double given by its
value. -/
inductive JSNumber where
  | nan
  | negInfinity
  | finite (q : ℚ)
  | posInfinity
deriving DecidableEq

/-- The comparison `x <= c` with a finite `c`; it is false on NaN. -/
def JSNumber.le (x : JSNumber) (c : ℚ) : Bool :=
  match x with
  | .nan => false
  | .negInfinity => true
  | .finite q => decide (q ≤ c)
  | .posInfinity => false

/-- The comparison `x < c` with a finite `c`; it is false on NaN. -/
def JSNumber.lt (x : JSNumber) (c : ℚ) : Bool :=
  match x with
  | .nan => false
  | .negInfinity => true
  | .finite q => decide (q < c)
  | .posInfinity => false

/-- The comparison `x > c` with a finite `c`; it is false on NaN. -/
def JSNumber.gt (x : JSNumber) (c : ℚ) : Bool :=
  match x with
  | .nan => false
  | .negInfinity => false
  | .finite q => decide (c < q)
  | .posInfinity => true

/-- The comparison `x >= c` with a finite `c`; it is false on NaN. -/
def JSNumber.ge (x : JSNumber) (c : ℚ) : Bool :=
  match x with
  | .nan => false
  | .negInfinity => false
  | .finite q => decide (c ≤ q)
  | .posInfinity => true

/-- Unary minus. -/
def JSNumber.neg (x : JSNumber) : JSNumber :=
  match x with
  | .nan => .nan
  | .negInfinity => .posInfinity
  | .finite q => .finite (-q)
  | .posInfinity => .negInfinity

/-- Rounding of a rational to the nearest integer, a tie going to the even one. -/
def roundHalfEven (x : ℚ) : ℤ :=
  if x - ⌊x⌋ < 1 / 2 then ⌊x⌋
  else if 1 / 2 < x - ⌊x⌋ then ⌊x⌋ + 1
  else if ⌊x⌋ % 2 = 0 then ⌊x⌋
  else ⌊x⌋ + 1

/-- The binary exponent of the last mantissa bit of the double nearest to `q`:
53 significant bits, and nothing finer than 2^-1074. -/
def ulpExponent (q : ℚ) : ℤ :=
  max (Int.log 2 |q| - 52) (-1074)

/-- The bound 2^1024 that no finite double reaches, written out. -/
def doubleOverflow : ℚ :=
  179769313486231590772930519078902473361797697894230657273430081157732675805500963132708477322407536021120113879871393357658789768814416622492847430639474124377767893424865485276302219601246094119453082952085005768838150682342462881473913110540827237163350510684586298239947245938479716304835356329624224137216

/-- The IEEE 754 binary64 value nearest to the rational `q` (round to nearest,
ties to even); an infinity when the rounded value reaches 2^1024. -/
def roundToDouble (q : ℚ) : JSNumber :=
  let r : ℚ := (roundHalfEven (q / 2 ^ ulpExponent q) : ℚ) * 2 ^ ulpExponent q
  if doubleOverflow ≤ r then .posInfinity
  else if r ≤ -doubleOverflow then .negInfinity
  else .finite r

/-- The sum `x + y`. -/
def JSNumber.add (x y : JSNumber) : JSNumber :=
  match x, y with
  | .nan, _ => .nan
  | _, .nan => .nan
  | .posInfinity, .negInfinity => .nan
  | .negInfinity, .posInfinity => .nan
  | .posInfinity, _ => .posInfinity
  | _, .posInfinity => .posInfinity
  | .negInfinity, _ => .negInfinity
  | _, .negInfinity => .negInfinity
  | .finite a, .finite b => roundToDouble (a + b)

/-- The difference `x - y`. -/
def JSNumber.sub (x y : JSNumber) : JSNumber :=
  x.add y.neg

/-- The product `x * y`. -/
def JSNumber.mul (x y : JSNumber) : JSNumber :=
  match x, y with
  | .nan, _ => .nan
  | _, .nan => .nan
  | .finite a, .finite b => roundToDouble (a * b)
  | .finite a, .posInfinity =>
    if a = 0 then .nan else if 0 < a then .posInfinity else .negInfinity
  | .finite a, .negInfinity =>
    if a = 0 then .nan else if 0 < a then .negInfinity else .posInfinity
  | .posInfinity, .finite b =>
    if b = 0 then .nan else if 0 < b then .posInfinity else .negInfinity
  | .negInfinity, .finite b =>
    if b = 0 then .nan else if 0 < b then .negInfinity else .posInfinity
  | .posInfinity, .posInfinity => .posInfinity
  | .posInfinity, .negInfinity => .negInfinity
  | .negInfinity, .posInfinity => .negInfinity
  | .negInfinity, .negInfinity => .posInfinity

/-- The quotient `x / y`.  A zero divisor counts as `+0`. -/
def JSNumber.div (x y : JSNumber) : JSNumber :=
  match x, y with
  | .nan, _ => .nan
  | _, .nan => .nan
  | .finite a, .finite b =>
    if b = 0 then
      if a = 0 then .nan else if 0 < a then .posInfinity else .negInfinity
    else roundToDouble (a / b)
  | .finite _, .posInfinity => .finite 0
  | .finite _, .negInfinity => .finite 0
  | .posInfinity, .finite b => if 0 ≤ b then .posInfinity else .negInfinity
  | .negInfinity, .finite b => if 0 ≤ b then .negInfinity else .posInfinity
  | .posInfinity, .posInfinity => .nan
  | .posInfinity, .negInfinity => .nan
  | .negInfinity, .posInfinity => .nan
  | .negInfinity, .negInfinity => .nan

/-- `Math.pow(x, n)` for a natural number `n`.  ECMAScript lets an
implementation approximate the result; here it is the exact power rounded
once. -/
def JSNumber.pow (x : JSNumber) (n : ℕ) : JSNumber :=
  if n = 0 then .finite 1
  else
    match x with
    | .nan => .nan
    | .finite a => roundToDouble (a ^ n)
    | .posInfinity => .posInfinity
    | .negInfinity => if n % 2 = 0 then .posInfinity else .negInfinity

/-- The code points (WhiteSpace and LineTerminator) that `parseFloat` and
`parseInt` skip at the start of the text. -/
def isStrWhiteSpaceChar (c : Char) : Bool :=
  [0x09, 0x0A, 0x0B, 0x0C, 0x0D, 0x20, 0xA0, 0x1680, 0x2028, 0x2029, 0x202F, 0x205F,
    0x3000, 0xFEFF].contains c.toNat
    || (0x2000 ≤ c.toNat && c.toNat ≤ 0x200A)

/-- The value of a run of decimal digits. -/
def digitsValue (ds : List Char) : ℕ :=
  ds.foldl (fun acc c => 10 * acc + (c.toNat - 48)) 0

/-- The ExponentPart that follows a mantissa, if there is one: `e` or `E`, an
optional sign, and at least one digit; `0` otherwise. -/
def exponentPart (cs : List Char) : ℤ :=
  match cs with
  | [] => 0
  | c :: rest =>
    if c = 'e' ∨ c = 'E' then
      match rest with
      | [] => 0
      | s :: more =>
        if s = '+' then
          if (more.takeWhile Char.isDigit).isEmpty then 0
          else (digitsValue (more.takeWhile Char.isDigit) : ℤ)
        else if s = '-' then
          if (more.takeWhile Char.isDigit).isEmpty then 0
          else -(digitsValue (more.takeWhile Char.isDigit) : ℤ)
        else
          if (rest.takeWhile Char.isDigit).isEmpty then 0
          else (digitsValue (rest.takeWhile Char.isDigit) : ℤ)
    else 0

/-- The longest start of the text that is a StrUnsignedDecimalLiteral, as the
double nearest to the decimal it writes; NaN when there is none. -/
def unsignedDecimal (cs : List Char) : JSNumber :=
  if cs.take 8 = "Infinity".toList then .posInfinity
  else
    let intDigits := cs.takeWhile Char.isDigit
    let afterInt := cs.dropWhile Char.isDigit
    match afterInt with
    | '.' :: r =>
      let fracDigits := r.takeWhile Char.isDigit
      let afterFrac := r.dropWhile Char.isDigit
      if intDigits.isEmpty ∧ fracDigits.isEmpty then .nan
      else
        roundToDouble (((digitsValue intDigits : ℚ)
            + (digitsValue fracDigits : ℚ) / 10 ^ fracDigits.length)
          * 10 ^ exponentPart afterFrac)
    | _ =>
      if intDigits.isEmpty then .nan
      else roundToDouble ((digitsValue intDigits : ℚ) * 10 ^ exponentPart afterInt)

/-- JavaScript `parseFloat(text)`. -/
def parseFloat (text : String) : JSNumber :=
  match text.toList.dropWhile isStrWhiteSpaceChar with
  | '+' :: r => unsignedDecimal r
  | '-' :: r => (unsignedDecimal r).neg
  | cs => unsignedDecimal cs

/-- The value of a hexadecimal digit. -/
def hexDigitValue (c : Char) : Option ℕ :=
  if c.isDigit then some (c.toNat - 48)
  else if 'a'.toNat ≤ c.toNat ∧ c.toNat ≤ 'f'.toNat then some (c.toNat - 87)
  else if 'A'.toNat ≤ c.toNat ∧ c.toNat ≤ 'F'.toNat then some (c.toNat - 55)
  else none

/-- The integer written by the longest start of the text made of digits of the
radix (10, or 16 after `0x`), as the double nearest to it; NaN when there is
no digit. -/
def unsignedInteger (cs : List Char) : JSNumber :=
  match cs with
  | '0' :: x :: r =>
    if x = 'x' ∨ x = 'X' then
      let ds := r.takeWhile (fun c => (hexDigitValue c).isSome)
      if ds.isEmpty then .nan
      else
        roundToDouble ((ds.foldl (fun acc c => 16 * acc + (hexDigitValue c).getD 0) 0 : ℕ) : ℚ)
    else roundToDouble (digitsValue (cs.takeWhile Char.isDigit) : ℚ)
  | _ =>
    if (cs.takeWhile Char.isDigit).isEmpty then .nan
    else roundToDouble (digitsValue (cs.takeWhile Char.isDigit) : ℚ)

/-- JavaScript `parseInt(text)` (no radix argument). -/
def parseInt (text : String) : JSNumber :=
  match text.toList.dropWhile isStrWhiteSpaceChar with
  | '+' :: r => unsignedInteger r
  | '-' :: r => (unsignedInteger r).neg
  | cs => unsignedInteger cs

/-! ## The calculation functions over doubles

The four functions of `calculations.js` once more, line by line, with every
operation the IEEE 754 one and every number a `JSNumber`.  The functions over
`ℚ` above are their reading in exact arithmetic. -/

/-- The record returned by `calculateEMI`, with its fields as doubles. -/
structure EMIResultDouble where
  emi : JSNumber
  totalAmount : JSNumber
  totalInterest : JSNumber
deriving DecidableEq

/-- `calculateEMI` of `calculations.js`, lines 16-44, over doubles; the tenure
is a natural number of months. -/
def calculateEMI_double (principal annualRate : JSNumber) (tenureMonths : ℕ) :
    EMIResultDouble :=
  let tenure : JSNumber := roundToDouble (tenureMonths : ℚ)
  let monthlyRate := (annualRate.div (.finite 12)).div (.finite 100)
  if monthlyRate = .finite 0 then
    let emi := principal.div tenure
    ⟨emi, principal, .finite 0⟩
  else
    let emiNumerator :=
      (principal.mul monthlyRate).mul (((JSNumber.finite 1).add monthlyRate).pow tenureMonths)
    let emiDenominator :=
      (((JSNumber.finite 1).add monthlyRate).pow tenureMonths).sub (.finite 1)
    let emi := emiNumerator.div emiDenominator
    let totalAmount := emi.mul tenure
    let totalInterest := totalAmount.sub principal
    ⟨emi, totalAmount, totalInterest⟩

/-- The record returned by `calculateGST`, with its fields as doubles. -/
structure GSTResultDouble where
  baseAmount : JSNumber
  gstAmount : JSNumber
  finalAmount : JSNumber
deriving DecidableEq

/-- `calculateGST` of `calculations.js`, lines 55-77, over doubles. -/
def calculateGST_double (amount gstRate : JSNumber) (mode : String) : GSTResultDouble :=
  if mode = "add" then
    let gstAmount := (amount.mul gstRate).div (.finite 100)
    let finalAmount := amount.add gstAmount
    ⟨amount, gstAmount, finalAmount⟩
  else
    let baseAmount := amount.div ((JSNumber.finite 1).add (gstRate.div (.finite 100)))
    let gstAmount := amount.sub baseAmount
    ⟨baseAmount, gstAmount, amount⟩

/-- `CURRENCY_RATES[code]` as the double its literal denotes; NaN for an absent
key. -/
def rateOfDouble (code : String) : JSNumber :=
  match rateOf code with
  | some r => roundToDouble r
  | none => .nan

/-- The record returned by `convertCurrency`, with its numbers as doubles. -/
structure CurrencyResultDouble where
  originalAmount : JSNumber
  convertedAmount : JSNumber
  exchangeRate : JSNumber
  fromCurrency : String
  toCurrency : String
deriving DecidableEq

/-- `convertCurrency` of `calculations.js`, lines 132-147, over doubles. -/
def convertCurrency_double (amount : JSNumber) (fromCurrency toCurrency : String) :
    CurrencyResultDouble :=
  let amountInUSD := amount.div (rateOfDouble fromCurrency)
  let convertedAmount := amountInUSD.mul (rateOfDouble toCurrency)
  let exchangeRate := (rateOfDouble toCurrency).div (rateOfDouble fromCurrency)
  ⟨amount, convertedAmount, exchangeRate, fromCurrency, toCurrency⟩

/-- The record returned by `calculateBMI`, with its bmi as a double. -/
structure BMIResultDouble where
  bmi : JSNumber
  category : String
  categoryClass : String
deriving DecidableEq

/-- `calculateBMI` of `calculations.js`, lines 157-187, over doubles. -/
def calculateBMI_double (weight height : JSNumber) : BMIResultDouble :=
  let heightInMeters := height.div (.finite 100)
  let bmi := weight.div (heightInMeters.mul heightInMeters)
  if bmi.lt 18.5 = true then
    ⟨bmi, "Underweight", "underweight"⟩
  else if bmi.ge 18.5 = true ∧ bmi.lt 25 = true then
    ⟨bmi, "Normal", "normal"⟩
  else if bmi.ge 25 = true ∧ bmi.lt 30 = true then
    ⟨bmi, "Overweight", "overweight"⟩
  else
    ⟨bmi, "Obese", "obese"⟩

/-! ## Page state shared by the four calculators -/

/-- An entry of a page's history list.  Its two strings are built by the
handlers with template strings and `Intl.NumberFormat`; that formatting is not
modelled, so the handlers below take the entry as an argument. -/
structure HistoryEntry where
  label : String
  value : String
deriving DecidableEq

/-- What a page holds in its `results` state: `null` (nothing calculated), the
record a calculation returned, or a record whose fields are not modelled (an
EMI computed for a tenure that is not a natural number). -/
inductive Shown (R : Type) where
  | null
  | record (r : R)
  | unmodelled
deriving DecidableEq

/-- The update `[historyEntry, ...history.slice(0, 9)]` every page makes after
a calculation. -/
def pushHistory (historyEntry : HistoryEntry) (history : List HistoryEntry) :
    List HistoryEntry :=
  historyEntry :: history.take 9

/-! ## EMICalculator.js -/

/-- The call `calculateEMI(principal, annualRate, tenureMonths)` on parsed
numbers; `calculateEMI_double` is given for a natural number of months. -/
def callCalculateEMI (principal annualRate tenureMonths : JSNumber) : Shown EMIResultDouble :=
  match tenureMonths with
  | .finite n =>
    if n.den = 1 ∧ 0 ≤ n.num then
      .record (calculateEMI_double principal annualRate n.num.toNat)
    else .unmodelled
  | _ => .unmodelled

/-- The error mapping of the EMI page: one optional message per field key. -/
structure EMIErrors where
  principal : Option String
  interestRate : Option String
  tenure : Option String
deriving DecidableEq

/-- `Object.keys(newErrors).length === 0` for the EMI page. -/
def EMIErrors.isEmpty (e : EMIErrors) : Bool :=
  e.principal.isNone && e.interestRate.isNone && e.tenure.isNone

/-- The React state of `EMICalculator`. -/
structure EMICalculatorState where
  principal : String
  interestRate : String
  tenure : String
  tenureType : String
  results : Shown EMIResultDouble
  history : List HistoryEntry
  errors : EMIErrors
deriving DecidableEq

/-- The state `EMICalculator` starts in (its `useState` arguments). -/
def EMICalculator.initialState : EMICalculatorState :=
  ⟨"", "", "", "months", .null, [], ⟨none, none, none⟩⟩

/-- `validateInputs` of `EMICalculator.js`, lines 30-47: the mapping it passes
to `setErrors`; it returns true when the mapping `isEmpty`. -/
def EMICalculator.validateInputs (s : EMICalculatorState) : EMIErrors :=
  { principal :=
      if s.principal = "" ∨ (parseFloat s.principal).le 0 = true then
        some "Please enter a valid principal amount"
      else none
    interestRate :=
      if s.interestRate = "" ∨ (parseFloat s.interestRate).lt 0 = true then
        some "Please enter a valid interest rate"
      else none
    tenure :=
      if s.tenure = "" ∨ (parseInt s.tenure).le 0 = true then
        some "Please enter a valid tenure"
      else none }

/-- The constant `tenureInMonths` of `handleCalculate`, `EMICalculator.js`
lines 58-60. -/
def EMICalculator.tenureInMonths (s : EMICalculatorState) : JSNumber :=
  if s.tenureType = "years" then (parseInt s.tenure).mul (.finite 12) else parseInt s.tenure

/-- `handleCalculate` of `EMICalculator.js`, lines 52-77. -/
def EMICalculator.handleCalculate (historyEntry : HistoryEntry) (s : EMICalculatorState) :
    EMICalculatorState :=
  let newErrors := EMICalculator.validateInputs s
  if newErrors.isEmpty = false then
    { s with errors := newErrors }
  else
    let result := callCalculateEMI (parseFloat s.principal) (parseFloat s.interestRate)
      (EMICalculator.tenureInMonths s)
    { s with
      errors := newErrors
      results := result
      history := pushHistory historyEntry s.history }

/-- `handleReset` of `EMICalculator.js`, lines 82-89. -/
def EMICalculator.handleReset (s : EMICalculatorState) : EMICalculatorState :=
  { s with
    principal := ""
    interestRate := ""
    tenure := ""
    tenureType := "months"
    results := .null
    errors := ⟨none, none, none⟩ }

/-- `handleClearHistory` of `EMICalculator.js`, lines 94-96. -/
def EMICalculator.handleClearHistory (s : EMICalculatorState) : EMICalculatorState :=
  { s with history := [] }

/-- What a user can do on the EMI page. -/
inductive EMIAction where
  | setPrincipal (text : String)
  | setInterestRate (text : String)
  | setTenure (text : String)
  | setTenureType (text : String)
  | calculate (historyEntry : HistoryEntry)
  | reset
  | clearHistory

/-- The effect of one action on the EMI page. -/
def EMICalculator.step (s : EMICalculatorState) : EMIAction → EMICalculatorState
  | .setPrincipal text => { s with principal := text }
  | .setInterestRate text => { s with interestRate := text }
  | .setTenure text => { s with tenure := text }
  | .setTenureType text => { s with tenureType := text }
  | .calculate historyEntry => EMICalculator.handleCalculate historyEntry s
  | .reset => EMICalculator.handleReset s
  | .clearHistory => EMICalculator.handleClearHistory s

/-- The state of the EMI page after a sequence of actions from its start. -/
def EMICalculator.run (actions : List EMIAction) : EMICalculatorState :=
  actions.foldl EMICalculator.step EMICalculator.initialState

/-! ## GSTCalculator.js -/

/-- The call `calculateGST(amount, gstRate, mode)` on parsed numbers. -/
def callCalculateGST (amount gstRate : JSNumber) (mode : String) : Shown GSTResultDouble :=
  .record (calculateGST_double amount gstRate mode)

/-- The error mapping of the GST page. -/
structure GSTErrors where
  amount : Option String
deriving DecidableEq

/-- `Object.keys(newErrors).length === 0` for the GST page. -/
def GSTErrors.isEmpty (e : GSTErrors) : Bool :=
  e.amount.isNone

/-- The React state of `GSTCalculator`. -/
structure GSTCalculatorState where
  amount : String
  gstRate : String
  mode : String
  results : Shown GSTResultDouble
  history : List HistoryEntry
  errors : GSTErrors
deriving DecidableEq

/-- The state `GSTCalculator` starts in. -/
def GSTCalculator.initialState : GSTCalculatorState :=
  ⟨"", "18", "add", .null, [], ⟨none⟩⟩

/-- `validateInputs` of `GSTCalculator.js`, lines 39-48. -/
def GSTCalculator.validateInputs (s : GSTCalculatorState) : GSTErrors :=
  { amount :=
      if s.amount = "" ∨ (parseFloat s.amount).le 0 = true then
        some "Please enter a valid amount"
      else none }

/-- `handleCalculate` of `GSTCalculator.js`, lines 53-74. -/
def GSTCalculator.handleCalculate (historyEntry : HistoryEntry) (s : GSTCalculatorState) :
    GSTCalculatorState :=
  let newErrors := GSTCalculator.validateInputs s
  if newErrors.isEmpty = false then
    { s with errors := newErrors }
  else
    let result := callCalculateGST (parseFloat s.amount) (parseFloat s.gstRate) s.mode
    { s with
      errors := newErrors
      results := result
      history := pushHistory historyEntry s.history }

/-- `handleReset` of `GSTCalculator.js`, lines 79-85. -/
def GSTCalculator.handleReset (s : GSTCalculatorState) : GSTCalculatorState :=
  { s with
    amount := ""
    gstRate := "18"
    mode := "add"
    results := .null
    errors := ⟨none⟩ }

/-- `handleClearHistory` of `GSTCalculator.js`, lines 90-92. -/
def GSTCalculator.handleClearHistory (s : GSTCalculatorState) : GSTCalculatorState :=
  { s with history := [] }

/-- What a user can do on the GST page. -/
inductive GSTAction where
  | setAmount (text : String)
  | setGstRate (text : String)
  | setMode (text : String)
  | calculate (historyEntry : HistoryEntry)
  | reset
  | clearHistory

/-- The effect of one action on the GST page. -/
def GSTCalculator.step (s : GSTCalculatorState) : GSTAction → GSTCalculatorState
  | .setAmount text => { s with amount := text }
  | .setGstRate text => { s with gstRate := text }
  | .setMode text => { s with mode := text }
  | .calculate historyEntry => GSTCalculator.handleCalculate historyEntry s
  | .reset => GSTCalculator.handleReset s
  | .clearHistory => GSTCalculator.handleClearHistory s

/-- The state of the GST page after a sequence of actions from its start. -/
def GSTCalculator.run (actions : List GSTAction) : GSTCalculatorState :=
  actions.foldl GSTCalculator.step GSTCalculator.initialState

/-! ## CurrencyConverter.js -/

/-- The call `convertCurrency(amount, fromCurrency, toCurrency)` on a parsed number. -/
def callConvertCurrency (amount : JSNumber) (fromCurrency toCurrency : String) :
    Shown CurrencyResultDouble :=
  .record (convertCurrency_double amount fromCurrency toCurrency)

/-- The error mapping of the currency page. -/
structure CurrencyErrors where
  amount : Option String
  currency : Option String
deriving DecidableEq

/-- `Object.keys(newErrors).length === 0` for the currency page. -/
def CurrencyErrors.isEmpty (e : CurrencyErrors) : Bool :=
  e.amount.isNone && e.currency.isNone

/-- The React state of `CurrencyConverter`. -/
structure CurrencyConverterState where
  amount : String
  fromCurrency : String
  toCurrency : String
  results : Shown CurrencyResultDouble
  history : List HistoryEntry
  errors : CurrencyErrors
deriving DecidableEq

/-- The state `CurrencyConverter` starts in. -/
def CurrencyConverter.initialState : CurrencyConverterState :=
  ⟨"", "USD", "INR", .null, [], ⟨none, none⟩⟩

/-- `validateInputs` of `CurrencyConverter.js`, lines 42-55. -/
def CurrencyConverter.validateInputs (s : CurrencyConverterState) : CurrencyErrors :=
  { amount :=
      if s.amount = "" ∨ (parseFloat s.amount).le 0 = true then
        some "Please enter a valid amount"
      else none
    currency :=
      if s.fromCurrency = s.toCurrency then
        some "Please select different currencies"
      else none }

/-- `handleConvert` of `CurrencyConverter.js`, lines 60-80. -/
def CurrencyConverter.handleConvert (historyEntry : HistoryEntry) (s : CurrencyConverterState) :
    CurrencyConverterState :=
  let newErrors := CurrencyConverter.validateInputs s
  if newErrors.isEmpty = false then
    { s with errors := newErrors }
  else
    let result := callConvertCurrency (parseFloat s.amount) s.fromCurrency s.toCurrency
    { s with
      errors := newErrors
      results := result
      history := pushHistory historyEntry s.history }

/-- `handleSwap` of `CurrencyConverter.js`, lines 85-90. -/
def CurrencyConverter.handleSwap (s : CurrencyConverterState) : CurrencyConverterState :=
  { s with
    fromCurrency := s.toCurrency
    toCurrency := s.fromCurrency
    results := .null }

/-- `handleReset` of `CurrencyConverter.js`, lines 95-101. -/
def CurrencyConverter.handleReset (s : CurrencyConverterState) : CurrencyConverterState :=
  { s with
    amount := ""
    fromCurrency := "USD"
    toCurrency := "INR"
    results := .null
    errors := ⟨none, none⟩ }

/-- `handleClearHistory` of `CurrencyConverter.js`, lines 106-108. -/
def CurrencyConverter.handleClearHistory (s : CurrencyConverterState) :
    CurrencyConverterState :=
  { s with history := [] }

/-- What a user can do on the currency page. -/
inductive CurrencyAction where
  | setAmount (text : String)
  | setFromCurrency (code : String)
  | setToCurrency (code : String)
  | convert (historyEntry : HistoryEntry)
  | swap
  | reset
  | clearHistory

/-- The effect of one action on the currency page. -/
def CurrencyConverter.step (s : CurrencyConverterState) :
    CurrencyAction → CurrencyConverterState
  | .setAmount text => { s with amount := text }
  | .setFromCurrency code => { s with fromCurrency := code }
  | .setToCurrency code => { s with toCurrency := code }
  | .convert historyEntry => CurrencyConverter.handleConvert historyEntry s
  | .swap => CurrencyConverter.handleSwap s
  | .reset => CurrencyConverter.handleReset s
  | .clearHistory => CurrencyConverter.handleClearHistory s

/-- The state of the currency page after a sequence of actions from its start. -/
def CurrencyConverter.run (actions : List CurrencyAction) : CurrencyConverterState :=
  actions.foldl CurrencyConverter.step CurrencyConverter.initialState

/-! ## BMICalculator.js -/

/-- The call `calculateBMI(weightKg, heightCm)` on parsed numbers. -/
def callCalculateBMI (weight height : JSNumber) : Shown BMIResultDouble :=
  .record (calculateBMI_double weight height)

/-- The error mapping of the BMI page. -/
structure BMIErrors where
  weight : Option String
  height : Option String
deriving DecidableEq

/-- `Object.keys(newErrors).length === 0` for the BMI page. -/
def BMIErrors.isEmpty (e : BMIErrors) : Bool :=
  e.weight.isNone && e.height.isNone

/-- The React state of `BMICalculator`. -/
structure BMICalculatorState where
  weight : String
  height : String
  unit : String
  results : Shown BMIResultDouble
  history : List HistoryEntry
  errors : BMIErrors
deriving DecidableEq

/-- The state `BMICalculator` starts in. -/
def BMICalculator.initialState : BMICalculatorState :=
  ⟨"", "", "metric", .null, [], ⟨none, none⟩⟩

/-- `validateInputs` of `BMICalculator.js`, lines 29-52.  Under metric units
the second assignment to a key replaces the message of the first. -/
def BMICalculator.validateInputs (s : BMICalculatorState) : BMIErrors :=
  let first : BMIErrors :=
    { weight :=
        if s.weight = "" ∨ (parseFloat s.weight).le 0 = true then
          some "Please enter a valid weight"
        else none
      height :=
        if s.height = "" ∨ (parseFloat s.height).le 0 = true then
          some "Please enter a valid height"
        else none }
  if s.unit = "metric" then
    { weight :=
        if (parseFloat s.weight).gt 500 = true then
          some "Weight seems too high. Please check your input."
        else first.weight
      height :=
        if (parseFloat s.height).gt 300 = true then
          some "Height seems too high. Please check your input."
        else first.height }
  else first

/-- `handleCalculate` of `BMICalculator.js`, lines 57-84. -/
def BMICalculator.handleCalculate (historyEntry : HistoryEntry) (s : BMICalculatorState) :
    BMICalculatorState :=
  let newErrors := BMICalculator.validateInputs s
  if newErrors.isEmpty = false then
    { s with errors := newErrors }
  else
    let weightKg :=
      if s.unit = "imperial" then (parseFloat s.weight).mul (roundToDouble 0.453592)
      else parseFloat s.weight
    let heightCm :=
      if s.unit = "imperial" then (parseFloat s.height).mul (roundToDouble 2.54)
      else parseFloat s.height
    let result := callCalculateBMI weightKg heightCm
    { s with
      errors := newErrors
      results := result
      history := pushHistory historyEntry s.history }

/-- `handleReset` of `BMICalculator.js`, lines 89-94. -/
def BMICalculator.handleReset (s : BMICalculatorState) : BMICalculatorState :=
  { s with
    weight := ""
    height := ""
    results := .null
    errors := ⟨none, none⟩ }

/-- `handleClearHistory` of `BMICalculator.js`, lines 99-101. -/
def BMICalculator.handleClearHistory (s : BMICalculatorState) : BMICalculatorState :=
  { s with history := [] }

/-- What a user can do on the BMI page. -/
inductive BMIAction where
  | setWeight (text : String)
  | setHeight (text : String)
  | setUnit (text : String)
  | calculate (historyEntry : HistoryEntry)
  | reset
  | clearHistory

/-- The effect of one action on the BMI page; choosing a unit also clears the
two fields and the results (`BMICalculator.js`, lines 149-154). -/
def BMICalculator.step (s : BMICalculatorState) : BMIAction → BMICalculatorState
  | .setWeight text => { s with weight := text }
  | .setHeight text => { s with height := text }
  | .setUnit text =>
    { s with
      unit := text
      weight := ""
      height := ""
      results := .null }
  | .calculate historyEntry => BMICalculator.handleCalculate historyEntry s
  | .reset => BMICalculator.handleReset s
  | .clearHistory => BMICalculator.handleClearHistory s

/-- The state of the BMI page after a sequence of actions from its start. -/
def BMICalculator.run (actions : List BMIAction) : BMICalculatorState :=
  actions.foldl BMICalculator.step BMICalculator.initialState

/-! ## Auxiliary facts -/

/-- The overflow bound is positive. -/
theorem doubleOverflow_pos : 0 < doubleOverflow := by
  unfold doubleOverflow
  norm_num

/-- Whatever is below 2^53 is below the overflow bound. -/
theorem lt_doubleOverflow (v : ℚ) (h : v < 9007199254740992) : v < doubleOverflow := by
  refine lt_of_lt_of_le h ?_
  unfold doubleOverflow
  norm_num

/-- An integer within a half of `x` is what `roundHalfEven` returns. -/
theorem roundHalfEven_eq (x : ℚ) (m : ℤ) (h3 : (m : ℚ) - 1 / 2 < x) (h4 : x < (m : ℚ) + 1 / 2) :
    roundHalfEven x = m := by
  have h1 := Int.floor_le x
  have h2 := Int.lt_floor_add_one x
  have hle : ⌊x⌋ ≤ m := by
    have : ((⌊x⌋ : ℤ) : ℚ) < (m : ℚ) + 1 := by linarith
    have : ⌊x⌋ < m + 1 := by exact_mod_cast this
    omega
  have hge : m ≤ ⌊x⌋ + 1 := by
    have : (m : ℚ) < ((⌊x⌋ : ℤ) : ℚ) + 2 := by linarith
    have : m < ⌊x⌋ + 2 := by exact_mod_cast this
    omega
  rcases (by omega : m = ⌊x⌋ ∨ m = ⌊x⌋ + 1) with hm | hm
  · have hlt : x - ⌊x⌋ < 1 / 2 := by
      have : (m : ℚ) = ((⌊x⌋ : ℤ) : ℚ) := by exact_mod_cast hm
      linarith
    simp only [roundHalfEven, if_pos hlt]
    exact hm.symm
  · have hm2 : (m : ℚ) = ((⌊x⌋ : ℤ) : ℚ) + 1 := by exact_mod_cast hm
    have hnlt : ¬ x - ⌊x⌋ < 1 / 2 := by
      intro hc
      linarith
    have hgt : 1 / 2 < x - ⌊x⌋ := by linarith
    simp only [roundHalfEven, if_neg hnlt, if_pos hgt]
    exact hm.symm

/-- The last-bit exponent of a positive `q` between 2^k and 2^(k+1), in the
normal range. -/
theorem ulpExponent_normal (q : ℚ) (k : ℤ) (hk : -1022 ≤ k)
    (h1 : (2 : ℚ) ^ k ≤ q) (h2 : q < (2 : ℚ) ^ (k + 1)) : ulpExponent q = k - 52 := by
  have hpos : 0 < q := lt_of_lt_of_le (by positivity) h1
  have hl1 : k ≤ Int.log 2 q :=
    (Int.zpow_le_iff_le_log (by norm_num) hpos).mp (by exact_mod_cast h1)
  have hl2 : Int.log 2 q < k + 1 :=
    (Int.lt_zpow_iff_log_lt (by norm_num) hpos).mp (by exact_mod_cast h2)
  unfold ulpExponent
  rw [abs_of_pos hpos]
  omega

/-- The last-bit exponent of a positive `q` below the normal range. -/
theorem ulpExponent_subnormal (q : ℚ) (h0 : 0 < q) (h2 : q < (2 : ℚ) ^ (-1022 : ℤ)) :
    ulpExponent q = -1074 := by
  have hl2 : Int.log 2 q < -1022 :=
    (Int.lt_zpow_iff_log_lt (by norm_num) h0).mp (by exact_mod_cast h2)
  unfold ulpExponent
  rw [abs_of_pos h0]
  omega

/-- The double nearest to a positive `q` of the normal range: `m * 2^(k-52)`
when `q` lies between 2^k and 2^(k+1) and within half a last bit of it. -/
theorem roundToDouble_normal (q v : ℚ) (k m : ℤ) (hk : -1022 ≤ k)
    (h1 : (2 : ℚ) ^ k ≤ q) (h2 : q < (2 : ℚ) ^ (k + 1))
    (h3 : (m : ℚ) - 1 / 2 < q / 2 ^ (k - 52)) (h4 : q / 2 ^ (k - 52) < (m : ℚ) + 1 / 2)
    (hv : v = (m : ℚ) * 2 ^ (k - 52)) (h5 : v < doubleOverflow) :
    roundToDouble q = .finite v := by
  have htwo : ∀ z : ℤ, (0 : ℚ) < 2 ^ z := fun z => zpow_pos (by norm_num) z
  have hpos : 0 < q := lt_of_lt_of_le (htwo k) h1
  have hx : 0 < q / 2 ^ (k - 52) := div_pos hpos (htwo _)
  have hm : (0 : ℚ) ≤ (m : ℚ) := by
    have h6 : (-1 : ℚ) < (m : ℚ) := by linarith only [h4, hx]
    have h7 : (-1 : ℤ) < m := by exact_mod_cast h6
    exact_mod_cast (by omega : (0 : ℤ) ≤ m)
  have hv0 : 0 ≤ v := by
    rw [hv]
    exact mul_nonneg hm (le_of_lt (htwo _))
  unfold roundToDouble
  simp only [ulpExponent_normal q k hk h1 h2, roundHalfEven_eq _ m h3 h4, ← hv]
  rw [if_neg (not_le.mpr h5), if_neg]
  exact not_le.mpr (lt_of_lt_of_le (neg_lt_zero.mpr doubleOverflow_pos) hv0)

/-- The double nearest to a positive `q` below the normal range. -/
theorem roundToDouble_subnormal (q v : ℚ) (m : ℤ) (h0 : 0 < q)
    (h2 : q < (2 : ℚ) ^ (-1022 : ℤ))
    (h3 : (m : ℚ) - 1 / 2 < q / 2 ^ (-1074 : ℤ)) (h4 : q / 2 ^ (-1074 : ℤ) < (m : ℚ) + 1 / 2)
    (hv : v = (m : ℚ) * 2 ^ (-1074 : ℤ)) (h5 : v < doubleOverflow) :
    roundToDouble q = .finite v := by
  have htwo : ∀ z : ℤ, (0 : ℚ) < 2 ^ z := fun z => zpow_pos (by norm_num) z
  have hx : 0 < q / 2 ^ (-1074 : ℤ) := div_pos h0 (htwo _)
  have hm : (0 : ℚ) ≤ (m : ℚ) := by
    have h6 : (-1 : ℚ) < (m : ℚ) := by linarith only [h4, hx]
    have h7 : (-1 : ℤ) < m := by exact_mod_cast h6
    exact_mod_cast (by omega : (0 : ℤ) ≤ m)
  have hv0 : 0 ≤ v := by
    rw [hv]
    exact mul_nonneg hm (le_of_lt (htwo _))
  unfold roundToDouble
  simp only [ulpExponent_subnormal q h0 h2, roundHalfEven_eq _ m h3 h4, ← hv]
  rw [if_neg (not_le.mpr h5), if_neg]
  exact not_le.mpr (lt_of_lt_of_le (neg_lt_zero.mpr doubleOverflow_pos) hv0)

/-- Zero is a double. -/
theorem roundToDouble_zero : roundToDouble 0 = .finite 0 := by
  have h : roundHalfEven 0 = 0 := roundHalfEven_eq 0 0 (by norm_num) (by norm_num)
  unfold roundToDouble
  simp only [zero_div, h, Int.cast_zero, zero_mul]
  rw [if_neg (not_le.mpr doubleOverflow_pos), if_neg]
  exact not_le.mpr (neg_lt_zero.mpr doubleOverflow_pos)

/-- Every natural number below 2^53 is a double. -/
theorem roundToDouble_nat (n : ℕ) (h : n < 2 ^ 53) : roundToDouble (n : ℚ) = .finite (n : ℚ) := by
  rcases Nat.eq_zero_or_pos n with h0 | h0
  · subst h0
    simpa using roundToDouble_zero
  · have hn0 : n ≠ 0 := Nat.pos_iff_ne_zero.mp h0
    have hk : Nat.log 2 n < 53 := Nat.log_lt_of_lt_pow hn0 h
    have hlo : 2 ^ Nat.log 2 n ≤ n := Nat.pow_log_le_self 2 hn0
    have hhi : n < 2 ^ (Nat.log 2 n + 1) := Nat.lt_pow_succ_log_self (by norm_num) n
    have e1 : ((52 - Nat.log 2 n : ℕ) : ℤ) = 52 - (Nat.log 2 n : ℤ) := by omega
    have hz : (2 : ℚ) ^ ((Nat.log 2 n : ℤ) - 52) * (2 : ℚ) ^ (52 - Nat.log 2 n) = 1 := by
      rw [← zpow_natCast (2 : ℚ) (52 - Nat.log 2 n), e1, ← zpow_add₀ (by norm_num)]
      simp
    have hpz : (0 : ℚ) < (2 : ℚ) ^ ((Nat.log 2 n : ℤ) - 52) := by positivity
    have hdiv : (n : ℚ) / 2 ^ ((Nat.log 2 n : ℤ) - 52)
        = (((n * 2 ^ (52 - Nat.log 2 n) : ℕ) : ℤ) : ℚ) := by
      rw [div_eq_iff (ne_of_gt hpz)]
      push_cast
      rw [mul_assoc, mul_comm ((2 : ℚ) ^ (52 - Nat.log 2 n)), hz, mul_one]
    refine roundToDouble_normal (n : ℚ) (n : ℚ) (Nat.log 2 n) ((n * 2 ^ (52 - Nat.log 2 n) : ℕ) : ℤ)
      (by omega) ?_ ?_ ?_ ?_ ?_ ?_
    · rw [zpow_natCast]
      exact_mod_cast hlo
    · have : ((Nat.log 2 n : ℤ) + 1) = ((Nat.log 2 n + 1 : ℕ) : ℤ) := by push_cast; ring
      rw [this, zpow_natCast]
      exact_mod_cast hhi
    · rw [hdiv]
      linarith
    · rw [hdiv]
      linarith
    · push_cast
      rw [mul_assoc, mul_comm ((2 : ℚ) ^ (52 - Nat.log 2 n)), hz, mul_one]
    · refine lt_doubleOverflow _ ?_
      have h53 : ((2 ^ 53 : ℕ) : ℚ) = 9007199254740992 := by norm_num
      rw [← h53]
      exact_mod_cast h

/-- A quotient of two finite doubles with a nonzero divisor is the rounded
quotient. -/
theorem div_finite (a b v : ℚ) (hb : b ≠ 0) (h : roundToDouble (a / b) = .finite v) :
    (JSNumber.finite a).div (.finite b) = .finite v := by
  simp only [JSNumber.div, if_neg hb, h]

/-- A product of two finite doubles is the rounded product. -/
theorem mul_finite (a b v : ℚ) (h : roundToDouble (a * b) = .finite v) :
    (JSNumber.finite a).mul (.finite b) = .finite v := by
  simp only [JSNumber.mul, h]

/-- A sum of two finite doubles is the rounded sum. -/
theorem add_finite (a b v : ℚ) (h : roundToDouble (a + b) = .finite v) :
    (JSNumber.finite a).add (.finite b) = .finite v := by
  simp only [JSNumber.add, h]

/-- A difference of two finite doubles is the rounded difference. -/
theorem sub_finite (a b v : ℚ) (h : roundToDouble (a - b) = .finite v) :
    (JSNumber.finite a).sub (.finite b) = .finite v := by
  simp only [JSNumber.sub, JSNumber.neg, JSNumber.add, ← sub_eq_add_neg, h]

/-- Compound growth over positive rate and positive term exceeds one. -/
theorem one_lt_growth (r : ℚ) (n : ℕ) (hr : 0 < r) (hn : 0 < n) : 1 < (1 + r) ^ n :=
  one_lt_pow₀ (by linarith) (Nat.pos_iff_ne_zero.mp hn)

/-- The monthly rate vanishes exactly when the annual rate does. -/
theorem monthlyRate_eq_zero_iff (annualRate : ℚ) : annualRate / 12 / 100 = 0 ↔ annualRate = 0 := by
  constructor
  · intro h
    have : annualRate = annualRate / 12 / 100 * 1200 := by ring
    rw [this, h, zero_mul]
  · rintro rfl
    norm_num

/-- The value of `calculateEMI` in the zero-rate branch. -/
theorem calculateEMI_zero (principal : ℚ) (tenureMonths : ℕ) :
    calculateEMI principal 0 tenureMonths = ⟨principal / tenureMonths, principal, 0⟩ := by
  simp [calculateEMI]

/-- The value of `calculateEMI` in the compound-formula branch. -/
theorem calculateEMI_compound (principal annualRate : ℚ) (tenureMonths : ℕ) (h : annualRate ≠ 0) :
    calculateEMI principal annualRate tenureMonths =
      ⟨principal * (annualRate / 12 / 100) * (1 + annualRate / 12 / 100) ^ tenureMonths
          / ((1 + annualRate / 12 / 100) ^ tenureMonths - 1),
        principal * (annualRate / 12 / 100) * (1 + annualRate / 12 / 100) ^ tenureMonths
          / ((1 + annualRate / 12 / 100) ^ tenureMonths - 1) * tenureMonths,
        principal * (annualRate / 12 / 100) * (1 + annualRate / 12 / 100) ^ tenureMonths
          / ((1 + annualRate / 12 / 100) ^ tenureMonths - 1) * tenureMonths - principal⟩ := by
  have hm : ¬ annualRate / 12 / 100 = 0 := fun hz => h ((monthlyRate_eq_zero_iff annualRate).mp hz)
  simp only [calculateEMI, if_neg hm]

/-- Growth bound behind "the borrower never repays less than the principal":
the interest factor gained over `n` periods is at most `n` periods of simple
interest on the grown amount. -/
theorem growth_sub_one_le (r : ℚ) (hr : 0 ≤ r) (n : ℕ) :
    (1 + r) ^ n - 1 ≤ n * r * (1 + r) ^ n := by
  induction n with
  | zero => simp
  | succ k ih =>
    have hx : (1 : ℚ) ≤ 1 + r := by linarith
    have hk : (1 : ℚ) ≤ (1 + r) ^ (k + 1) := one_le_pow₀ hx
    have h1 : (1 + r) * ((1 + r) ^ k - 1) ≤ (1 + r) * (k * r * (1 + r) ^ k) :=
      mul_le_mul_of_nonneg_left ih (by linarith)
    have h2 : r * 1 ≤ r * (1 + r) ^ (k + 1) := mul_le_mul_of_nonneg_left hk hr
    push_cast
    have e1 : (1 + r) ^ (k + 1) - 1 = (1 + r) * ((1 + r) ^ k - 1) + r * 1 := by ring
    have e2 : ((k : ℚ) + 1) * r * (1 + r) ^ (k + 1)
        = (1 + r) * (k * r * (1 + r) ^ k) + r * (1 + r) ^ (k + 1) := by ring
    rw [e1, e2]
    exact add_le_add h1 h2

/-- Every code of the table has a rate, and that rate is positive. -/
theorem rateOf_of_mem (code : String) (h : code ∈ currencyCodes) :
    ∃ r : ℚ, rateOf code = some r ∧ 0 < r := by
  simp only [currencyCodes, CURRENCY_RATES, List.map_cons, List.map_nil, List.mem_cons,
    List.mem_singleton, List.not_mem_nil, or_false] at h
  rcases h with h | h | h | h | h | h | h | h | h | h <;> subst h <;>
    simp [rateOf, CURRENCY_RATES, List.lookup] <;> norm_num

/-- The value of `convertCurrency` when both rates are found. -/
theorem convertCurrency_of_rates (amount : ℚ) (fromCurrency toCurrency : String) (rf rt : ℚ)
    (hf : rateOf fromCurrency = some rf) (ht : rateOf toCurrency = some rt) :
    convertCurrency amount fromCurrency toCurrency
      = ⟨amount, some (amount / rf * rt), some (rt / rf), fromCurrency, toCurrency⟩ := by
  simp [convertCurrency, hf, ht]

/-! ## Claims -/

/-- C1: for principal > 0, annual rate >= 0 and tenureMonths > 0 the record
returned by `calculateEMI` satisfies totalAmount = emi * tenureMonths and
totalInterest = totalAmount - principal, in the zero-rate branch and in the
compound-formula branch alike. -/
theorem calculateEMI_record_invariant (principal annualRate : ℚ) (tenureMonths : ℕ)
    (_hp : 0 < principal) (_hr : 0 ≤ annualRate) (ht : 0 < tenureMonths) :
    (calculateEMI principal annualRate tenureMonths).totalAmount
        = (calculateEMI principal annualRate tenureMonths).emi * tenureMonths
      ∧ (calculateEMI principal annualRate tenureMonths).totalInterest
        = (calculateEMI principal annualRate tenureMonths).totalAmount - principal := by
  have hn : (tenureMonths : ℚ) ≠ 0 := by exact_mod_cast Nat.pos_iff_ne_zero.mp ht
  by_cases h : annualRate = 0
  · subst h
    rw [calculateEMI_zero]
    simp only
    refine ⟨?_, by ring⟩
    field_simp
  · rw [calculateEMI_compound _ _ _ h]
    exact ⟨rfl, rfl⟩

/-- Witness for C1 in both branches: 1200 over 12 months at 0%, and 100000 at
10% over 12 months. -/
theorem calculateEMI_record_invariant_witness :
    ((calculateEMI 1200 0 12).totalAmount = (calculateEMI 1200 0 12).emi * (12 : ℕ)
      ∧ (calculateEMI 1200 0 12).totalInterest = (calculateEMI 1200 0 12).totalAmount - 1200)
    ∧ ((calculateEMI 100000 10 12).totalAmount = (calculateEMI 100000 10 12).emi * (12 : ℕ)
      ∧ (calculateEMI 100000 10 12).totalInterest
        = (calculateEMI 100000 10 12).totalAmount - 100000) :=
  ⟨calculateEMI_record_invariant 1200 0 12 (by norm_num) (by norm_num) (by norm_num),
    calculateEMI_record_invariant 100000 10 12 (by norm_num) (by norm_num) (by norm_num)⟩

/-- C2 (as stated, refuted): for (100000, 10, 12) the totalAmount returned is
about 105499.065 and the totalInterest about 5499.065, each more than 0.005
away from the 105499.09 and 5499.09 of the claim. -/
theorem calculateEMI_scenario_as_stated_fails :
    0.005 < |(calculateEMI 100000 10 12).totalAmount - 105499.09|
      ∧ 0.005 < |(calculateEMI 100000 10 12).totalInterest - 5499.09| := by
  rw [calculateEMI_compound _ _ _ (by norm_num)]
  simp only [lt_abs]
  constructor <;> right <;> norm_num

/-- C2 (amended): for principal > 0, annual rate > 0 and tenureMonths > 0, with
monthlyRate = annualRate / 12 / 100, `calculateEMI` returns
emi = principal * monthlyRate * (1 + monthlyRate)^tenureMonths
/ ((1 + monthlyRate)^tenureMonths - 1), totalAmount = emi * tenureMonths and
totalInterest = totalAmount - principal; for (100000, 10, 12) emi is within
0.005 of 8791.59, totalAmount within 0.005 of 105499.06 and totalInterest
within 0.005 of 5499.06. -/
theorem calculateEMI_compound_formula (principal annualRate : ℚ) (tenureMonths : ℕ)
    (_hp : 0 < principal) (hr : 0 < annualRate) (_ht : 0 < tenureMonths) :
    ((calculateEMI principal annualRate tenureMonths).emi
        = principal * (annualRate / 12 / 100) * (1 + annualRate / 12 / 100) ^ tenureMonths
            / ((1 + annualRate / 12 / 100) ^ tenureMonths - 1)
      ∧ (calculateEMI principal annualRate tenureMonths).totalAmount
        = (calculateEMI principal annualRate tenureMonths).emi * tenureMonths
      ∧ (calculateEMI principal annualRate tenureMonths).totalInterest
        = (calculateEMI principal annualRate tenureMonths).totalAmount - principal)
    ∧ (|(calculateEMI 100000 10 12).emi - 8791.59| < 0.005
      ∧ |(calculateEMI 100000 10 12).totalAmount - 105499.06| < 0.005
      ∧ |(calculateEMI 100000 10 12).totalInterest - 5499.06| < 0.005) := by
  refine ⟨?_, ?_⟩
  · rw [calculateEMI_compound _ _ _ (ne_of_gt hr)]
    exact ⟨rfl, rfl, rfl⟩
  · rw [calculateEMI_compound _ _ _ (by norm_num)]
    simp only [abs_lt]
    norm_num

/-- Witness for C2 (amended) at the scenario itself: 100000 at 10% over 12 months. -/
theorem calculateEMI_compound_formula_witness :
    ((calculateEMI 100000 10 12).emi
        = 100000 * ((10 : ℚ) / 12 / 100) * (1 + (10 : ℚ) / 12 / 100) ^ 12
            / ((1 + (10 : ℚ) / 12 / 100) ^ 12 - 1)
      ∧ (calculateEMI 100000 10 12).totalAmount = (calculateEMI 100000 10 12).emi * (12 : ℕ)
      ∧ (calculateEMI 100000 10 12).totalInterest
        = (calculateEMI 100000 10 12).totalAmount - 100000)
    ∧ (|(calculateEMI 100000 10 12).emi - 8791.59| < 0.005
      ∧ |(calculateEMI 100000 10 12).totalAmount - 105499.06| < 0.005
      ∧ |(calculateEMI 100000 10 12).totalInterest - 5499.06| < 0.005) :=
  calculateEMI_compound_formula 100000 10 12 (by norm_num) (by norm_num) (by norm_num)

/-- C3: for principal > 0 and tenureMonths > 0, `calculateEMI` with annual
rate 0 returns emi = principal / tenureMonths, totalInterest = 0 and
totalAmount = principal. -/
theorem calculateEMI_zero_rate (principal : ℚ) (tenureMonths : ℕ)
    (_hp : 0 < principal) (_ht : 0 < tenureMonths) :
    (calculateEMI principal 0 tenureMonths).emi = principal / tenureMonths
      ∧ (calculateEMI principal 0 tenureMonths).totalInterest = 0
      ∧ (calculateEMI principal 0 tenureMonths).totalAmount = principal := by
  rw [calculateEMI_zero]
  exact ⟨rfl, rfl, rfl⟩

/-- Witness for C3: 90000 over 36 months at 0% is 2500 a month. -/
theorem calculateEMI_zero_rate_witness :
    (calculateEMI 90000 0 36).emi = 2500
      ∧ (calculateEMI 90000 0 36).totalInterest = 0
      ∧ (calculateEMI 90000 0 36).totalAmount = 90000 := by
  have h := calculateEMI_zero_rate 90000 36 (by norm_num) (by norm_num)
  refine ⟨?_, h.2.1, h.2.2⟩
  rw [h.1]
  norm_num

/-- C4 (amended): in exact arithmetic, for principal > 0, annual rate >= 0 and
tenureMonths > 0 the result of `calculateEMI` has emi > 0,
totalAmount >= principal and totalInterest >= 0. -/
theorem calculateEMI_bounds (principal annualRate : ℚ) (tenureMonths : ℕ)
    (hp : 0 < principal) (hr : 0 ≤ annualRate) (ht : 0 < tenureMonths) :
    0 < (calculateEMI principal annualRate tenureMonths).emi
      ∧ principal ≤ (calculateEMI principal annualRate tenureMonths).totalAmount
      ∧ 0 ≤ (calculateEMI principal annualRate tenureMonths).totalInterest := by
  have hn : (0 : ℚ) < tenureMonths := by exact_mod_cast ht
  by_cases h : annualRate = 0
  · subst h
    rw [calculateEMI_zero]
    exact ⟨div_pos hp hn, le_refl _, le_refl _⟩
  · rw [calculateEMI_compound _ _ _ h]
    simp only
    have hr0 : 0 < annualRate := lt_of_le_of_ne hr (Ne.symm h)
    have hm : 0 < annualRate / 12 / 100 := by positivity
    have hg : 1 < (1 + annualRate / 12 / 100) ^ tenureMonths := one_lt_growth _ _ hm ht
    have hd : 0 < (1 + annualRate / 12 / 100) ^ tenureMonths - 1 := by linarith
    have hb := growth_sub_one_le (annualRate / 12 / 100) (le_of_lt hm) tenureMonths
    have hnum : 0 < principal * (annualRate / 12 / 100)
        * (1 + annualRate / 12 / 100) ^ tenureMonths := by positivity
    have htot : principal ≤ principal * (annualRate / 12 / 100)
        * (1 + annualRate / 12 / 100) ^ tenureMonths
          / ((1 + annualRate / 12 / 100) ^ tenureMonths - 1) * tenureMonths := by
      rw [div_mul_eq_mul_div, le_div_iff₀ hd]
      have := mul_le_mul_of_nonneg_left hb (le_of_lt hp)
      linarith
    exact ⟨div_pos hnum hd, htot, by linarith⟩

/-- Witness for C4: 100000 at 10% over 12 months. -/
theorem calculateEMI_bounds_witness :
    0 < (calculateEMI 100000 10 12).emi
      ∧ (100000 : ℚ) ≤ (calculateEMI 100000 10 12).totalAmount
      ∧ 0 ≤ (calculateEMI 100000 10 12).totalInterest :=
  calculateEMI_bounds 100000 10 12 (by norm_num) (by norm_num) (by norm_num)

/-- C5 (amended): in exact arithmetic, for every amount, every rate >= 0 and
either mode, the result of `calculateGST` satisfies
finalAmount = baseAmount + gstAmount; in add mode baseAmount is the input
amount and in extract mode finalAmount is the input amount. -/
theorem calculateGST_invariant (amount gstRate : ℚ) (mode : String) (_hr : 0 ≤ gstRate) :
    (calculateGST amount gstRate mode).finalAmount
        = (calculateGST amount gstRate mode).baseAmount
          + (calculateGST amount gstRate mode).gstAmount
      ∧ (calculateGST amount gstRate "add").baseAmount = amount
      ∧ (calculateGST amount gstRate "subtract").finalAmount = amount := by
  refine ⟨?_, by simp [calculateGST], by simp [calculateGST]⟩
  unfold calculateGST
  split
  · rfl
  · simp only
    ring

/-- Witness for C5: extracting 18% from an inclusive 1180. -/
theorem calculateGST_invariant_witness :
    (calculateGST 1180 18 "subtract").finalAmount
        = (calculateGST 1180 18 "subtract").baseAmount
          + (calculateGST 1180 18 "subtract").gstAmount
      ∧ (calculateGST 1180 18 "add").baseAmount = 1180
      ∧ (calculateGST 1180 18 "subtract").finalAmount = 1180 :=
  calculateGST_invariant 1180 18 "subtract" (by norm_num)

/-- C6: `calculateGST` equals its reference definition for amount > 0 and
rate >= 0, in add mode and in extract mode, and
calculateGST(1000, 18, add) returns baseAmount 1000, gstAmount 180,
finalAmount 1180. -/
theorem calculateGST_eq_reference (amount gstRate : ℚ) (m : GSTMode)
    (_ha : 0 < amount) (_hr : 0 ≤ gstRate) :
    calculateGST amount gstRate m.toJS = computeGST_reference amount gstRate m
      ∧ calculateGST 1000 18 "add" = ⟨1000, 180, 1180⟩ := by
  constructor
  · cases m
    · simp [calculateGST, computeGST_reference, GSTMode.toJS]
    · simp [calculateGST, computeGST_reference, GSTMode.toJS]
  · simp only [calculateGST, if_true]
    norm_num

/-- Witness for C6: extract mode on 1180 at 18%. -/
theorem calculateGST_eq_reference_witness :
    calculateGST 1180 18 "subtract" = computeGST_reference 1180 18 GSTMode.ExtractGST
      ∧ calculateGST 1000 18 "add" = ⟨1000, 180, 1180⟩ :=
  calculateGST_eq_reference 1180 18 GSTMode.ExtractGST (by norm_num) (by norm_num)

/-- C7 (amended): GST add-then-extract round trip in exact arithmetic: for
amount > 0 and rate >= 0, extracting at the same rate from the finalAmount of
add mode returns baseAmount = amount and the gstAmount that add mode
produced. -/
theorem calculateGST_add_extract (amount gstRate : ℚ) (_ha : 0 < amount) (hr : 0 ≤ gstRate) :
    (calculateGST (calculateGST amount gstRate "add").finalAmount gstRate "subtract").baseAmount
        = amount
      ∧ (calculateGST (calculateGST amount gstRate "add").finalAmount gstRate
            "subtract").gstAmount
        = (calculateGST amount gstRate "add").gstAmount := by
  have hd : (1 : ℚ) + gstRate / 100 ≠ 0 := by positivity
  have hb : (amount + amount * gstRate / 100) / (1 + gstRate / 100) = amount := by
    rw [div_eq_iff hd]
    ring
  simp only [calculateGST, if_true, String.reduceEq, if_false, hb]
  exact ⟨trivial, by ring⟩

/-- Witness for C7: 1000 at 18% grows to 1180 and comes back to 1000 and 180. -/
theorem calculateGST_add_extract_witness :
    (calculateGST (calculateGST 1000 18 "add").finalAmount 18 "subtract").baseAmount = 1000
      ∧ (calculateGST (calculateGST 1000 18 "add").finalAmount 18 "subtract").gstAmount
        = (calculateGST 1000 18 "add").gstAmount :=
  calculateGST_add_extract 1000 18 (by norm_num) (by norm_num)

/-- C8: for every amount, `calculateGST` with rate 0 returns gstAmount = 0 and
baseAmount = finalAmount = amount, in add mode and in extract mode alike. -/
theorem calculateGST_zero_rate (amount : ℚ) (mode : String) :
    (calculateGST amount 0 mode).gstAmount = 0
      ∧ (calculateGST amount 0 mode).baseAmount = amount
      ∧ (calculateGST amount 0 mode).finalAmount = amount := by
  unfold calculateGST
  split <;> simp

/-- C9 (amended): in exact arithmetic, for every amount and every pair of codes
present in `CURRENCY_RATES`, `convertCurrency` returns originalAmount = amount,
exchangeRate = rate[to] / rate[from] and
convertedAmount = originalAmount * exchangeRate; and
convertCurrency(100, USD, INR) returns convertedAmount 8312 and
exchangeRate 83.12. -/
theorem convertCurrency_result (amount : ℚ) (fromCurrency toCurrency : String)
    (hf : fromCurrency ∈ currencyCodes) (ht : toCurrency ∈ currencyCodes) :
    (∃ rf rt e : ℚ, rateOf fromCurrency = some rf ∧ rateOf toCurrency = some rt
        ∧ (convertCurrency amount fromCurrency toCurrency).originalAmount = amount
        ∧ (convertCurrency amount fromCurrency toCurrency).exchangeRate = some e
        ∧ e = rt / rf
        ∧ (convertCurrency amount fromCurrency toCurrency).convertedAmount
          = some ((convertCurrency amount fromCurrency toCurrency).originalAmount * e))
    ∧ (convertCurrency 100 "USD" "INR").convertedAmount = some 8312
    ∧ (convertCurrency 100 "USD" "INR").exchangeRate = some 83.12 := by
  obtain ⟨rf, hrf, -⟩ := rateOf_of_mem fromCurrency hf
  obtain ⟨rt, hrt, -⟩ := rateOf_of_mem toCurrency ht
  have hU : rateOf "USD" = some 1 := by simp [rateOf, CURRENCY_RATES, List.lookup]
  have hI : rateOf "INR" = some 83.12 := by simp [rateOf, CURRENCY_RATES, List.lookup]
  refine ⟨⟨rf, rt, rt / rf, hrf, hrt, ?_, ?_, rfl, ?_⟩, ?_, ?_⟩
  · rw [convertCurrency_of_rates _ _ _ _ _ hrf hrt]
  · rw [convertCurrency_of_rates _ _ _ _ _ hrf hrt]
  · rw [convertCurrency_of_rates _ _ _ _ _ hrf hrt]
    simp only [Option.some.injEq]
    ring
  · rw [convertCurrency_of_rates _ _ _ _ _ hU hI]
    simp only [Option.some.injEq]
    norm_num
  · rw [convertCurrency_of_rates _ _ _ _ _ hU hI]
    simp only [Option.some.injEq]
    norm_num

/-- Witness for C9: 250 euros to yen. -/
theorem convertCurrency_result_witness :
    (∃ rf rt e : ℚ, rateOf "EUR" = some rf ∧ rateOf "JPY" = some rt
        ∧ (convertCurrency 250 "EUR" "JPY").originalAmount = 250
        ∧ (convertCurrency 250 "EUR" "JPY").exchangeRate = some e
        ∧ e = rt / rf
        ∧ (convertCurrency 250 "EUR" "JPY").convertedAmount
          = some ((convertCurrency 250 "EUR" "JPY").originalAmount * e))
    ∧ (convertCurrency 100 "USD" "INR").convertedAmount = some 8312
    ∧ (convertCurrency 100 "USD" "INR").exchangeRate = some 83.12 :=
  convertCurrency_result 250 "EUR" "JPY" (by decide) (by decide)

/-- C10 (amended): in exact arithmetic currency conversion is
inverse-consistent: for every amount x and every two codes A, B of
`CURRENCY_RATES`, converting x from A to B and the converted amount back from
B to A gives x. -/
theorem convertCurrency_inverse (x : ℚ) (a b : String)
    (ha : a ∈ currencyCodes) (hb : b ∈ currencyCodes) :
    ∃ y : ℚ, (convertCurrency x a b).convertedAmount = some y
      ∧ (convertCurrency y b a).convertedAmount = some x := by
  obtain ⟨ra, hra, hpa⟩ := rateOf_of_mem a ha
  obtain ⟨rb, hrb, hpb⟩ := rateOf_of_mem b hb
  refine ⟨x / ra * rb, ?_, ?_⟩
  · rw [convertCurrency_of_rates _ _ _ _ _ hra hrb]
  · rw [convertCurrency_of_rates _ _ _ _ _ hrb hra]
    simp only [Option.some.injEq]
    have hra0 : ra ≠ 0 := ne_of_gt hpa
    have hrb0 : rb ≠ 0 := ne_of_gt hpb
    field_simp
    ring

/-- Witness for C10: 100 pounds to rupees and back. -/
theorem convertCurrency_inverse_witness :
    ∃ y : ℚ, (convertCurrency 100 "GBP" "INR").convertedAmount = some y
      ∧ (convertCurrency y "INR" "GBP").convertedAmount = some 100 :=
  convertCurrency_inverse 100 "GBP" "INR" (by decide) (by decide)

/-- C11 (amended): in exact arithmetic, for every amount and every code C of
`CURRENCY_RATES`, convertCurrency(amount, C, C) returns a record with
convertedAmount = amount and exchangeRate = 1: equal codes are not rejected by
the function. -/
theorem convertCurrency_same_code (amount : ℚ) (code : String) (hc : code ∈ currencyCodes) :
    (convertCurrency amount code code).convertedAmount = some amount
      ∧ (convertCurrency amount code code).exchangeRate = some 1
      ∧ (convertCurrency amount code code).originalAmount = amount
      ∧ (convertCurrency amount code code).fromCurrency = code
      ∧ (convertCurrency amount code code).toCurrency = code := by
  obtain ⟨r, hr, hpos⟩ := rateOf_of_mem code hc
  have hr0 : r ≠ 0 := ne_of_gt hpos
  rw [convertCurrency_of_rates _ _ _ _ _ hr hr]
  refine ⟨?_, ?_, rfl, rfl, rfl⟩
  · simp only [Option.some.injEq]
    field_simp
  · simp only [Option.some.injEq]
    exact div_self hr0

/-- Witness for C11: 42.5 Swiss francs to Swiss francs. -/
theorem convertCurrency_same_code_witness :
    (convertCurrency 42.5 "CHF" "CHF").convertedAmount = some 42.5
      ∧ (convertCurrency 42.5 "CHF" "CHF").exchangeRate = some 1
      ∧ (convertCurrency 42.5 "CHF" "CHF").originalAmount = 42.5
      ∧ (convertCurrency 42.5 "CHF" "CHF").fromCurrency = "CHF"
      ∧ (convertCurrency 42.5 "CHF" "CHF").toCurrency = "CHF" :=
  convertCurrency_same_code 42.5 "CHF" (by decide)

/-- The branch of `calculateBMI` taken below 18.5. -/
theorem calculateBMI_underweight (weight height : ℚ)
    (h : weight / (height / 100 * (height / 100)) < 18.5) :
    calculateBMI weight height
      = ⟨weight / (height / 100 * (height / 100)), "Underweight", "underweight"⟩ := by
  simp only [calculateBMI, if_pos h]

/-- The branch of `calculateBMI` taken from 18.5 up to 25. -/
theorem calculateBMI_normal (weight height : ℚ)
    (h1 : 18.5 ≤ weight / (height / 100 * (height / 100)))
    (h2 : weight / (height / 100 * (height / 100)) < 25) :
    calculateBMI weight height
      = ⟨weight / (height / 100 * (height / 100)), "Normal", "normal"⟩ := by
  have hn : ¬ weight / (height / 100 * (height / 100)) < 18.5 := not_lt.mpr h1
  have hy : weight / (height / 100 * (height / 100)) ≥ 18.5
      ∧ weight / (height / 100 * (height / 100)) < 25 := ⟨h1, h2⟩
  simp only [calculateBMI, if_neg hn, if_pos hy]

/-- The branch of `calculateBMI` taken from 25 up to 30. -/
theorem calculateBMI_overweight (weight height : ℚ)
    (h1 : 25 ≤ weight / (height / 100 * (height / 100)))
    (h2 : weight / (height / 100 * (height / 100)) < 30) :
    calculateBMI weight height
      = ⟨weight / (height / 100 * (height / 100)), "Overweight", "overweight"⟩ := by
  have hn : ¬ weight / (height / 100 * (height / 100)) < 18.5 :=
    not_lt.mpr (le_trans (by norm_num) h1)
  have hm : ¬ (weight / (height / 100 * (height / 100)) ≥ 18.5
      ∧ weight / (height / 100 * (height / 100)) < 25) := fun hc => absurd hc.2 (not_lt.mpr h1)
  have hy : weight / (height / 100 * (height / 100)) ≥ 25
      ∧ weight / (height / 100 * (height / 100)) < 30 := ⟨h1, h2⟩
  simp only [calculateBMI, if_neg hn, if_neg hm, if_pos hy]

/-- The branch of `calculateBMI` taken from 30 on. -/
theorem calculateBMI_obese (weight height : ℚ)
    (h1 : 30 ≤ weight / (height / 100 * (height / 100))) :
    calculateBMI weight height
      = ⟨weight / (height / 100 * (height / 100)), "Obese", "obese"⟩ := by
  have hn : ¬ weight / (height / 100 * (height / 100)) < 18.5 :=
    not_lt.mpr (le_trans (by norm_num) h1)
  have hm : ¬ (weight / (height / 100 * (height / 100)) ≥ 18.5
      ∧ weight / (height / 100 * (height / 100)) < 25) :=
    fun hc => absurd hc.2 (not_lt.mpr (le_trans (by norm_num) h1))
  have ho : ¬ (weight / (height / 100 * (height / 100)) ≥ 25
      ∧ weight / (height / 100 * (height / 100)) < 30) := fun hc => absurd hc.2 (not_lt.mpr h1)
  simp only [calculateBMI, if_neg hn, if_neg hm, if_neg ho]

/-- The bmi field of `calculateBMI`, whatever the branch. -/
theorem calculateBMI_bmi (weight height : ℚ) :
    (calculateBMI weight height).bmi = weight / (height / 100 * (height / 100)) := by
  unfold calculateBMI
  simp only
  split_ifs <;> rfl

/-- C12: for weight > 0 and height > 0, `calculateBMI` classifies the computed
bmi by half-open intervals: Underweight exactly when bmi < 18.5, Normal
exactly when 18.5 <= bmi < 25, Overweight exactly when 25 <= bmi < 30, Obese
exactly when bmi >= 30 (so 18.5, 25 and 30 fall in the upper category); the
category is one of the four, and categoryClass is its lowercase form. -/
theorem calculateBMI_classification (weight height : ℚ) (_hw : 0 < weight) (_hh : 0 < height) :
    ((calculateBMI weight height).category = "Underweight"
        ↔ (calculateBMI weight height).bmi < 18.5)
      ∧ ((calculateBMI weight height).category = "Normal"
        ↔ 18.5 ≤ (calculateBMI weight height).bmi ∧ (calculateBMI weight height).bmi < 25)
      ∧ ((calculateBMI weight height).category = "Overweight"
        ↔ 25 ≤ (calculateBMI weight height).bmi ∧ (calculateBMI weight height).bmi < 30)
      ∧ ((calculateBMI weight height).category = "Obese"
        ↔ 30 ≤ (calculateBMI weight height).bmi)
      ∧ (calculateBMI weight height).category ∈ ["Underweight", "Normal", "Overweight", "Obese"]
      ∧ (calculateBMI weight height).categoryClass.toList
        = (calculateBMI weight height).category.toList.map Char.toLower := by
  rcases lt_or_le (weight / (height / 100 * (height / 100))) 18.5 with h1 | h1
  · rw [calculateBMI_underweight _ _ h1]
    simp only [String.reduceEq, true_iff, false_iff, not_and, not_le, not_lt]
    refine ⟨h1, ?_, ?_, ?_, by decide, by decide⟩
    · intro h; linarith
    · intro h; linarith
    · linarith
  · rcases lt_or_le (weight / (height / 100 * (height / 100))) 25 with h2 | h2
    · rw [calculateBMI_normal _ _ h1 h2]
      simp only [String.reduceEq, true_iff, false_iff, not_and, not_le, not_lt]
      refine ⟨h1, ⟨h1, h2⟩, ?_, ?_, by decide, by decide⟩
      · intro h; linarith
      · linarith
    · rcases lt_or_le (weight / (height / 100 * (height / 100))) 30 with h3 | h3
      · rw [calculateBMI_overweight _ _ h2 h3]
        simp only [String.reduceEq, true_iff, false_iff, not_and, not_le, not_lt]
        refine ⟨h1, ?_, ⟨h2, h3⟩, h3, by decide, by decide⟩
        intro _; exact h2
      · rw [calculateBMI_obese _ _ h3]
        simp only [String.reduceEq, true_iff, false_iff, not_and, not_le, not_lt]
        refine ⟨h1, ?_, ?_, h3, by decide, by decide⟩
        · intro _; exact h2
        · intro _; exact h3

/-- Witness for C12 at the three boundaries and at the spec's Underweight case:
with a height of 100 cm the bmi equals the weight, so 18.5 kg is Normal, 25 kg
is Overweight and 30 kg is Obese; 58.5 kg at 180 cm is Underweight. -/
theorem calculateBMI_classification_witness :
    (calculateBMI 18.5 100).category = "Normal"
      ∧ (calculateBMI 25 100).category = "Overweight"
      ∧ (calculateBMI 30 100).category = "Obese"
      ∧ (calculateBMI 58.5 180).category = "Underweight" := by
  refine ⟨?_, ?_, ?_, ?_⟩
  · refine (calculateBMI_classification 18.5 100 (by norm_num) (by norm_num)).2.1.mpr ?_
    rw [calculateBMI_bmi]
    norm_num
  · refine (calculateBMI_classification 25 100 (by norm_num) (by norm_num)).2.2.1.mpr ?_
    rw [calculateBMI_bmi]
    norm_num
  · refine (calculateBMI_classification 30 100 (by norm_num) (by norm_num)).2.2.2.1.mpr ?_
    rw [calculateBMI_bmi]
    norm_num
  · refine (calculateBMI_classification 58.5 180 (by norm_num) (by norm_num)).1.mpr ?_
    rw [calculateBMI_bmi]
    norm_num

/-- C13 (amended): in exact arithmetic, for weight > 0 and height > 0,
`calculateBMI` returns bmi = weight / (height / 100)^2, which is > 0; for
(70, 175) the bmi is within 0.005 of 22.86 and the category is Normal. -/
theorem calculateBMI_value (weight height : ℚ) (hw : 0 < weight) (hh : 0 < height) :
    (calculateBMI weight height).bmi = weight / (height / 100) ^ 2
      ∧ 0 < (calculateBMI weight height).bmi
      ∧ |(calculateBMI 70 175).bmi - 22.86| < 0.005
      ∧ (calculateBMI 70 175).category = "Normal" := by
  refine ⟨?_, ?_, ?_, ?_⟩
  · rw [calculateBMI_bmi, pow_two]
  · rw [calculateBMI_bmi]
    positivity
  · rw [calculateBMI_bmi, abs_lt]
    norm_num
  · rw [calculateBMI_normal 70 175 (by norm_num) (by norm_num)]

/-- Witness for C13: 82 kg at 168 cm. -/
theorem calculateBMI_value_witness :
    (calculateBMI 82 168).bmi = 82 / ((168 : ℚ) / 100) ^ 2
      ∧ 0 < (calculateBMI 82 168).bmi
      ∧ |(calculateBMI 70 175).bmi - 22.86| < 0.005
      ∧ (calculateBMI 70 175).category = "Normal" :=
  calculateBMI_value 82 168 (by norm_num) (by norm_num)

/-- A checked division by a nonzero divisor is the division. -/
theorem checkedDiv_of_ne (a b : ℚ) (hb : b ≠ 0) : checkedDiv a b = some (a / b) := by
  simp [checkedDiv, hb]

/-- Every entry of the rate table is positive. -/
theorem CURRENCY_RATES_pos (entry : String × ℚ) (h : entry ∈ CURRENCY_RATES) : 0 < entry.2 := by
  simp only [CURRENCY_RATES, List.mem_cons, List.mem_singleton, List.not_mem_nil, or_false] at h
  rcases h with h | h | h | h | h | h | h | h | h | h <;> subst h <;> norm_num

/-- With a positive tenure no checked division of `calculateEMI` fails. -/
theorem calculateEMI_checked_eq (principal annualRate : ℚ) (tenureMonths : ℕ)
    (hr : 0 ≤ annualRate) (ht : 0 < tenureMonths) :
    calculateEMI_checked principal annualRate tenureMonths
      = some (calculateEMI principal annualRate tenureMonths) := by
  have hn : (tenureMonths : ℚ) ≠ 0 := by exact_mod_cast Nat.pos_iff_ne_zero.mp ht
  have h12 : checkedDiv annualRate 12 = some (annualRate / 12) := checkedDiv_of_ne _ _ (by norm_num)
  have h100 : checkedDiv (annualRate / 12) 100 = some (annualRate / 12 / 100) :=
    checkedDiv_of_ne _ _ (by norm_num)
  by_cases h : annualRate = 0
  · subst h
    simp [calculateEMI_checked, calculateEMI, checkedDiv, hn]
  · have hm : ¬ annualRate / 12 / 100 = 0 :=
      fun hz => h ((monthlyRate_eq_zero_iff annualRate).mp hz)
    have hpos : 0 < annualRate / 12 / 100 := by
      have : 0 < annualRate := lt_of_le_of_ne hr (Ne.symm h)
      positivity
    have hd : (1 + annualRate / 12 / 100) ^ tenureMonths - 1 ≠ 0 := by
      have := one_lt_growth _ _ hpos ht
      linarith
    simp [calculateEMI_checked, calculateEMI, h12, h100, hm, checkedDiv_of_ne _ _ hd]

/-- With a rate >= 0 no checked division of `calculateGST` fails. -/
theorem calculateGST_checked_eq (amount gstRate : ℚ) (mode : String) (hr : 0 ≤ gstRate) :
    calculateGST_checked amount gstRate mode = some (calculateGST amount gstRate mode) := by
  have hd : (1 : ℚ) + gstRate / 100 ≠ 0 := by positivity
  have h100 : ∀ a : ℚ, checkedDiv a 100 = some (a / 100) :=
    fun a => checkedDiv_of_ne _ _ (by norm_num)
  by_cases hm : mode = "add"
  · simp [calculateGST_checked, calculateGST, hm, h100]
  · simp [calculateGST_checked, calculateGST, hm, h100, checkedDiv_of_ne _ _ hd]

/-- For codes of the table no checked division of `convertCurrency` fails. -/
theorem convertCurrency_checked_eq (amount : ℚ) (fromCurrency toCurrency : String)
    (hf : fromCurrency ∈ currencyCodes) (ht : toCurrency ∈ currencyCodes) :
    convertCurrency_checked amount fromCurrency toCurrency
      = some (convertCurrency amount fromCurrency toCurrency) := by
  obtain ⟨rf, hrf, hpf⟩ := rateOf_of_mem fromCurrency hf
  obtain ⟨rt, hrt, -⟩ := rateOf_of_mem toCurrency ht
  have hf0 : rf ≠ 0 := ne_of_gt hpf
  simp [convertCurrency_checked, convertCurrency, checkedDivNaN, hrf, hrt, hf0]

/-- With a height > 0 no checked division of `calculateBMI` fails. -/
theorem calculateBMI_checked_eq (weight height : ℚ) (hh : 0 < height) :
    calculateBMI_checked weight height = some (calculateBMI weight height) := by
  have h100 : checkedDiv height 100 = some (height / 100) := checkedDiv_of_ne _ _ (by norm_num)
  have hd : height / 100 * (height / 100) ≠ 0 := by positivity
  simp only [calculateBMI_checked, calculateBMI, h100, checkedDiv_of_ne _ _ hd, Option.bind_eq_bind,
    Option.some_bind, Option.pure_def]
  split_ifs <;> rfl

/-- C14 (amended): in exact arithmetic, under validated input (principal > 0,
rate >= 0, tenure > 0; GST rate >= 0; currency codes of the table;
height > 0) no division of the four calculation functions has a zero
divisor: each function with its divisions
checked returns the result of the original, (1 + monthlyRate)^tenureMonths - 1
is nonzero whenever monthlyRate is nonzero, 1 + rate/100 >= 1, every entry of
`CURRENCY_RATES` is positive and so is the exchangeRate, and
(height/100)^2 > 0. -/
theorem no_zero_divisor (principal annualRate : ℚ) (tenureMonths : ℕ)
    (amount gstRate : ℚ) (mode : String)
    (money : ℚ) (fromCurrency toCurrency : String) (weight height : ℚ)
    (_hp : 0 < principal) (hr : 0 ≤ annualRate) (ht : 0 < tenureMonths)
    (hg : 0 ≤ gstRate)
    (hf : fromCurrency ∈ currencyCodes) (hto : toCurrency ∈ currencyCodes)
    (hh : 0 < height) :
    (calculateEMI_checked principal annualRate tenureMonths
          = some (calculateEMI principal annualRate tenureMonths)
        ∧ (annualRate / 12 / 100 ≠ 0 → (1 + annualRate / 12 / 100) ^ tenureMonths - 1 ≠ 0))
      ∧ (calculateGST_checked amount gstRate mode = some (calculateGST amount gstRate mode)
        ∧ 1 ≤ 1 + gstRate / 100)
      ∧ (convertCurrency_checked money fromCurrency toCurrency
          = some (convertCurrency money fromCurrency toCurrency)
        ∧ (∀ entry ∈ CURRENCY_RATES, 0 < entry.2)
        ∧ ∃ e : ℚ, (convertCurrency money fromCurrency toCurrency).exchangeRate = some e ∧ 0 < e)
      ∧ (calculateBMI_checked weight height = some (calculateBMI weight height)
        ∧ 0 < (height / 100) ^ 2) := by
  refine ⟨⟨calculateEMI_checked_eq _ _ _ hr ht, ?_⟩,
    ⟨calculateGST_checked_eq _ _ _ hg, ?_⟩,
    ⟨convertCurrency_checked_eq _ _ _ hf hto, CURRENCY_RATES_pos, ?_⟩,
    ⟨calculateBMI_checked_eq _ _ hh, by positivity⟩⟩
  · intro hm
    have hm0 : 0 ≤ annualRate / 12 / 100 := by positivity
    have hpos : 0 < annualRate / 12 / 100 := lt_of_le_of_ne hm0 (Ne.symm hm)
    have := one_lt_growth _ _ hpos ht
    linarith
  · have : 0 ≤ gstRate / 100 := by positivity
    linarith
  · obtain ⟨rf, hrf, hpf⟩ := rateOf_of_mem fromCurrency hf
    obtain ⟨rt, hrt, hpt⟩ := rateOf_of_mem toCurrency hto
    refine ⟨rt / rf, ?_, div_pos hpt hpf⟩
    rw [convertCurrency_of_rates _ _ _ _ _ hrf hrt]

/-- Witness for C14: a loan of 250000 at 9% over 24 months, 1180 at 18% in
extract mode, 60 dollars to yen, and 70 kg at 175 cm. -/
theorem no_zero_divisor_witness :
    (calculateEMI_checked 250000 9 24 = some (calculateEMI 250000 9 24)
        ∧ ((9 : ℚ) / 12 / 100 ≠ 0 → (1 + (9 : ℚ) / 12 / 100) ^ 24 - 1 ≠ 0))
      ∧ (calculateGST_checked 1180 18 "subtract" = some (calculateGST 1180 18 "subtract")
        ∧ (1 : ℚ) ≤ 1 + 18 / 100)
      ∧ (convertCurrency_checked 60 "USD" "JPY" = some (convertCurrency 60 "USD" "JPY")
        ∧ (∀ entry ∈ CURRENCY_RATES, 0 < entry.2)
        ∧ ∃ e : ℚ, (convertCurrency 60 "USD" "JPY").exchangeRate = some e ∧ 0 < e)
      ∧ (calculateBMI_checked 70 175 = some (calculateBMI 70 175)
        ∧ 0 < ((175 : ℚ) / 100) ^ 2) :=
  no_zero_divisor 250000 9 24 1180 18 "subtract" 60 "USD" "JPY" 70 175
    (by norm_num) (by norm_num) (by norm_num) (by norm_num) (by decide) (by decide)
    (by norm_num)

/-- On a number that is not NaN, `<= c` is the negation of `> c`. -/
theorem jsnumber_le_iff_not_gt (x : JSNumber) (c : ℚ) (hx : x ≠ .nan) :
    x.le c = true ↔ x.gt c = false := by
  cases x with
  | nan => exact absurd rfl hx
  | negInfinity => simp [JSNumber.le, JSNumber.gt]
  | finite q => simp [JSNumber.le, JSNumber.gt]
  | posInfinity => simp [JSNumber.le, JSNumber.gt]

/-- On a number that is not NaN, `< c` is the negation of `>= c`. -/
theorem jsnumber_lt_iff_not_ge (x : JSNumber) (c : ℚ) (hx : x ≠ .nan) :
    x.lt c = true ↔ x.ge c = false := by
  cases x with
  | nan => exact absurd rfl hx
  | negInfinity => simp [JSNumber.lt, JSNumber.ge]
  | finite q => simp [JSNumber.lt, JSNumber.ge]
  | posInfinity => simp [JSNumber.lt, JSNumber.ge]

/-- Text without a digit does not parse: `parseFloat("abc")` is NaN. -/
theorem parseFloat_abc : parseFloat "abc" = .nan := by decide

/-- Text without a digit does not parse: `parseInt("abc")` is NaN. -/
theorem parseInt_abc : parseInt "abc" = .nan := by decide

/-- `parseFloat("100000")` is 100000. -/
theorem parseFloat_100000 : parseFloat "100000" = .finite 100000 := by
  simp [parseFloat, unsignedDecimal, exponentPart, digitsValue, isStrWhiteSpaceChar,
    List.takeWhile, List.dropWhile]
  exact_mod_cast roundToDouble_nat 100000 (by norm_num)

/-- `parseFloat("10.5")` is 10.5. -/
theorem parseFloat_10_5 : parseFloat "10.5" = .finite 10.5 := by
  have h : roundToDouble (21 / 2) = .finite (21 / 2) :=
    roundToDouble_normal (21 / 2) (21 / 2) 3 5910974510923776 (by norm_num) (by norm_num)
      (by norm_num) (by norm_num) (by norm_num) (by norm_num)
      (lt_doubleOverflow _ (by norm_num))
  have e : (10 + 5 / 10 : ℚ) = 21 / 2 := by norm_num
  simp [parseFloat, unsignedDecimal, exponentPart, digitsValue, isStrWhiteSpaceChar,
    List.takeWhile, List.dropWhile]
  rw [e, h]
  norm_num

/-- `parseInt("12")` is 12. -/
theorem parseInt_12 : parseInt "12" = .finite 12 := by
  simp [parseInt, unsignedInteger, digitsValue, isStrWhiteSpaceChar, List.takeWhile,
    List.dropWhile]
  exact_mod_cast roundToDouble_nat 12 (by norm_num)

/-- The three error keys of the EMI page, each in terms of its field alone. -/
theorem emi_validation_keys (s : EMICalculatorState) :
    ((EMICalculator.validateInputs s).principal.isSome = true
        ↔ s.principal = "" ∨ (parseFloat s.principal).le 0 = true)
      ∧ ((EMICalculator.validateInputs s).interestRate.isSome = true
        ↔ s.interestRate = "" ∨ (parseFloat s.interestRate).lt 0 = true)
      ∧ ((EMICalculator.validateInputs s).tenure.isSome = true
        ↔ s.tenure = "" ∨ (parseInt s.tenure).le 0 = true) := by
  unfold EMICalculator.validateInputs
  refine ⟨?_, ?_, ?_⟩ <;> simp only <;> split_ifs with h <;> simp [h]

/-- The EMI page accepts exactly when none of the three keys is set. -/
theorem emi_validation_accepts_iff (s : EMICalculatorState) :
    (EMICalculator.validateInputs s).isEmpty = true
      ↔ ¬ (s.principal = "" ∨ (parseFloat s.principal).le 0 = true)
        ∧ ¬ (s.interestRate = "" ∨ (parseFloat s.interestRate).lt 0 = true)
        ∧ ¬ (s.tenure = "" ∨ (parseInt s.tenure).le 0 = true) := by
  obtain ⟨h1, h2, h3⟩ := emi_validation_keys s
  rw [← h1, ← h2, ← h3]
  simp only [EMIErrors.isEmpty, Bool.and_eq_true, Option.isNone_iff_eq_none, Bool.not_eq_true,
    Option.not_isSome, and_assoc]

/-- C15 (as stated, refuted): with the text "abc" in the three fields, which
does not parse to a number, `validateInputs` of the EMI page reports no error
at all. -/
theorem emi_validation_accepts_unparsed_text :
    parseFloat "abc" = .nan ∧ parseInt "abc" = .nan
      ∧ EMICalculator.validateInputs ⟨"abc", "abc", "abc", "months", .null, [], ⟨none, none, none⟩⟩
        = ⟨none, none, none⟩
      ∧ (EMICalculator.validateInputs
          ⟨"abc", "abc", "abc", "months", .null, [], ⟨none, none, none⟩⟩).isEmpty = true := by
  refine ⟨parseFloat_abc, parseInt_abc, ?_, ?_⟩
  · simp [EMICalculator.validateInputs, parseFloat_abc, parseInt_abc, JSNumber.le, JSNumber.lt]
  · simp [EMICalculator.validateInputs, parseFloat_abc, parseInt_abc, JSNumber.le, JSNumber.lt,
      EMIErrors.isEmpty]

/-- C15 (amended): when every non-empty field parses to a number (`parseFloat`
for principal and rate, `parseInt` for tenure, not NaN), EMI validation
accepts exactly when principal is present and > 0, annual rate is present and
>= 0, and tenure is present with the integer read from it > 0; and it reports
an error under the key principal, interestRate or tenure exactly when that
field fails its condition. -/
theorem emi_validation_on_parsed_text (s : EMICalculatorState)
    (hp : s.principal = "" ∨ parseFloat s.principal ≠ .nan)
    (hr : s.interestRate = "" ∨ parseFloat s.interestRate ≠ .nan)
    (ht : s.tenure = "" ∨ parseInt s.tenure ≠ .nan) :
    ((EMICalculator.validateInputs s).isEmpty = true
        ↔ (s.principal ≠ "" ∧ (parseFloat s.principal).gt 0 = true)
          ∧ (s.interestRate ≠ "" ∧ (parseFloat s.interestRate).ge 0 = true)
          ∧ (s.tenure ≠ "" ∧ (parseInt s.tenure).gt 0 = true))
      ∧ ((EMICalculator.validateInputs s).principal.isSome = true
        ↔ ¬ (s.principal ≠ "" ∧ (parseFloat s.principal).gt 0 = true))
      ∧ ((EMICalculator.validateInputs s).interestRate.isSome = true
        ↔ ¬ (s.interestRate ≠ "" ∧ (parseFloat s.interestRate).ge 0 = true))
      ∧ ((EMICalculator.validateInputs s).tenure.isSome = true
        ↔ ¬ (s.tenure ≠ "" ∧ (parseInt s.tenure).gt 0 = true)) := by
  have kp : (s.principal = "" ∨ (parseFloat s.principal).le 0 = true)
      ↔ ¬ (s.principal ≠ "" ∧ (parseFloat s.principal).gt 0 = true) := by
    rcases hp with h | h
    · simp [h]
    · rw [jsnumber_le_iff_not_gt _ _ h]
      by_cases he : s.principal = "" <;> simp [he]
  have kr : (s.interestRate = "" ∨ (parseFloat s.interestRate).lt 0 = true)
      ↔ ¬ (s.interestRate ≠ "" ∧ (parseFloat s.interestRate).ge 0 = true) := by
    rcases hr with h | h
    · simp [h]
    · rw [jsnumber_lt_iff_not_ge _ _ h]
      by_cases he : s.interestRate = "" <;> simp [he]
  have kt : (s.tenure = "" ∨ (parseInt s.tenure).le 0 = true)
      ↔ ¬ (s.tenure ≠ "" ∧ (parseInt s.tenure).gt 0 = true) := by
    rcases ht with h | h
    · simp [h]
    · rw [jsnumber_le_iff_not_gt _ _ h]
      by_cases he : s.tenure = "" <;> simp [he]
  obtain ⟨h1, h2, h3⟩ := emi_validation_keys s
  refine ⟨?_, h1.trans kp, h2.trans kr, h3.trans kt⟩
  rw [emi_validation_accepts_iff, kp, kr, kt]
  simp only [not_not]

/-- Witness for C15 (amended): principal "100000", rate "10.5", tenure "12" all
parse, and the form is accepted. -/
theorem emi_validation_on_parsed_text_witness :
    (EMICalculator.validateInputs
      ⟨"100000", "10.5", "12", "months", .null, [], ⟨none, none, none⟩⟩).isEmpty = true :=
  (emi_validation_on_parsed_text
      ⟨"100000", "10.5", "12", "months", .null, [], ⟨none, none, none⟩⟩
      (Or.inr (by rw [parseFloat_100000]; exact JSNumber.noConfusion))
      (Or.inr (by rw [parseFloat_10_5]; exact JSNumber.noConfusion))
      (Or.inr (by rw [parseInt_12]; exact JSNumber.noConfusion))).1.mpr
    ⟨⟨by decide, by
        show (parseFloat "100000").gt 0 = true
        rw [parseFloat_100000]
        simp [JSNumber.gt]⟩,
      ⟨by decide, by
        show (parseFloat "10.5").ge 0 = true
        rw [parseFloat_10_5]
        simp only [JSNumber.ge, decide_eq_true_eq]
        norm_num⟩,
      ⟨by decide, by
        show (parseInt "12").gt 0 = true
        rw [parseInt_12]
        simp [JSNumber.gt]⟩⟩

/-- C16: BMI validation reports a weight error exactly when weight is missing,
<= 0, or (unit is metric and weight > 500), and a height error exactly when
height is missing, <= 0, or (unit is metric and height > 300); when the unit is
not metric no upper bound is applied; and the input is accepted exactly when
neither error is reported. -/
theorem bmi_validation_errors (s : BMICalculatorState) :
    ((BMICalculator.validateInputs s).weight.isSome = true
        ↔ s.weight = "" ∨ (parseFloat s.weight).le 0 = true
          ∨ (s.unit = "metric" ∧ (parseFloat s.weight).gt 500 = true))
      ∧ ((BMICalculator.validateInputs s).height.isSome = true
        ↔ s.height = "" ∨ (parseFloat s.height).le 0 = true
          ∨ (s.unit = "metric" ∧ (parseFloat s.height).gt 300 = true))
      ∧ (s.unit ≠ "metric" →
          ((BMICalculator.validateInputs s).weight.isSome = true
            ↔ s.weight = "" ∨ (parseFloat s.weight).le 0 = true)
          ∧ ((BMICalculator.validateInputs s).height.isSome = true
            ↔ s.height = "" ∨ (parseFloat s.height).le 0 = true))
      ∧ ((BMICalculator.validateInputs s).isEmpty = true
        ↔ (BMICalculator.validateInputs s).weight = none
          ∧ (BMICalculator.validateInputs s).height = none) := by
  refine ⟨?_, ?_, ?_, ?_⟩
  · unfold BMICalculator.validateInputs
    by_cases hu : s.unit = "metric"
    · by_cases hg : (parseFloat s.weight).gt 500 = true
      · simp [hu, hg]
      · by_cases h : s.weight = "" ∨ (parseFloat s.weight).le 0 = true
        · have h' := h
          rw [← or_assoc]
          simp only [hu, hg, if_true, if_pos h]
          simp [h']
        · have h' := h
          rw [← or_assoc]
          simp only [hu, hg, if_true, if_neg h]
          simp [h']
    · by_cases h : s.weight = "" ∨ (parseFloat s.weight).le 0 = true
      · have h' := h
        rw [← or_assoc]
        simp only [hu, if_false, if_pos h]
        simp [h']
      · have h' := h
        rw [← or_assoc]
        simp only [hu, if_false, if_neg h]
        simp [h']
  · unfold BMICalculator.validateInputs
    by_cases hu : s.unit = "metric"
    · by_cases hg : (parseFloat s.height).gt 300 = true
      · simp [hu, hg]
      · by_cases h : s.height = "" ∨ (parseFloat s.height).le 0 = true
        · have h' := h
          rw [← or_assoc]
          simp only [hu, hg, if_true, if_pos h]
          simp [h']
        · have h' := h
          rw [← or_assoc]
          simp only [hu, hg, if_true, if_neg h]
          simp [h']
    · by_cases h : s.height = "" ∨ (parseFloat s.height).le 0 = true
      · have h' := h
        rw [← or_assoc]
        simp only [hu, if_false, if_pos h]
        simp [h']
      · have h' := h
        rw [← or_assoc]
        simp only [hu, if_false, if_neg h]
        simp [h']
  · intro hu
    unfold BMICalculator.validateInputs
    simp only [hu, if_false]
    constructor <;> split_ifs with h <;> simp [h]
  · simp [BMIErrors.isEmpty, Option.isNone_iff_eq_none]

/-- `parseFloat("600")` is 600. -/
theorem parseFloat_600 : parseFloat "600" = .finite 600 := by
  simp [parseFloat, unsignedDecimal, exponentPart, digitsValue, isStrWhiteSpaceChar,
    List.takeWhile, List.dropWhile]
  exact_mod_cast roundToDouble_nat 600 (by norm_num)

/-- Witness for C16: a weight of "600" is flagged under metric units and is not
flagged under imperial units. -/
theorem bmi_validation_errors_witness :
    (BMICalculator.validateInputs
        ⟨"600", "170", "metric", .null, [], ⟨none, none⟩⟩).weight.isSome = true
      ∧ ¬ (BMICalculator.validateInputs
        ⟨"600", "70", "imperial", .null, [], ⟨none, none⟩⟩).weight.isSome = true := by
  constructor
  · refine (bmi_validation_errors
      ⟨"600", "170", "metric", .null, [], ⟨none, none⟩⟩).1.mpr (Or.inr (Or.inr ⟨rfl, ?_⟩))
    simp only [parseFloat_600, JSNumber.gt, decide_eq_true_eq]
    norm_num
  · intro h
    have hk := ((bmi_validation_errors
      ⟨"600", "70", "imperial", .null, [], ⟨none, none⟩⟩).2.2.1 (by decide)).1.mp h
    simp only [parseFloat_600, JSNumber.le, decide_eq_true_eq] at hk
    rcases hk with hk | hk
    · exact absurd hk (by decide)
    · norm_num at hk

/-- C17: for each of the four calculators, when validation of the form state
yields at least one error the submit handler returns the state with only the
error mapping replaced: the calculation is not made, and the results, the
history and the fields are as before. -/
theorem handlers_stop_on_error (historyEntry : HistoryEntry)
    (emi : EMICalculatorState) (gst : GSTCalculatorState)
    (cur : CurrencyConverterState) (bmi : BMICalculatorState)
    (h1 : (EMICalculator.validateInputs emi).isEmpty = false)
    (h2 : (GSTCalculator.validateInputs gst).isEmpty = false)
    (h3 : (CurrencyConverter.validateInputs cur).isEmpty = false)
    (h4 : (BMICalculator.validateInputs bmi).isEmpty = false) :
    (EMICalculator.handleCalculate historyEntry emi
          = { emi with errors := EMICalculator.validateInputs emi }
        ∧ (EMICalculator.handleCalculate historyEntry emi).results = emi.results
        ∧ (EMICalculator.handleCalculate historyEntry emi).history = emi.history)
      ∧ (GSTCalculator.handleCalculate historyEntry gst
          = { gst with errors := GSTCalculator.validateInputs gst }
        ∧ (GSTCalculator.handleCalculate historyEntry gst).results = gst.results
        ∧ (GSTCalculator.handleCalculate historyEntry gst).history = gst.history)
      ∧ (CurrencyConverter.handleConvert historyEntry cur
          = { cur with errors := CurrencyConverter.validateInputs cur }
        ∧ (CurrencyConverter.handleConvert historyEntry cur).results = cur.results
        ∧ (CurrencyConverter.handleConvert historyEntry cur).history = cur.history)
      ∧ (BMICalculator.handleCalculate historyEntry bmi
          = { bmi with errors := BMICalculator.validateInputs bmi }
        ∧ (BMICalculator.handleCalculate historyEntry bmi).results = bmi.results
        ∧ (BMICalculator.handleCalculate historyEntry bmi).history = bmi.history) := by
  have e1 : EMICalculator.handleCalculate historyEntry emi
      = { emi with errors := EMICalculator.validateInputs emi } := by
    simp only [EMICalculator.handleCalculate, h1, if_true]
  have e2 : GSTCalculator.handleCalculate historyEntry gst
      = { gst with errors := GSTCalculator.validateInputs gst } := by
    simp only [GSTCalculator.handleCalculate, h2, if_true]
  have e3 : CurrencyConverter.handleConvert historyEntry cur
      = { cur with errors := CurrencyConverter.validateInputs cur } := by
    simp only [CurrencyConverter.handleConvert, h3, if_true]
  have e4 : BMICalculator.handleCalculate historyEntry bmi
      = { bmi with errors := BMICalculator.validateInputs bmi } := by
    simp only [BMICalculator.handleCalculate, h4, if_true]
  refine ⟨⟨e1, ?_, ?_⟩, ⟨e2, ?_, ?_⟩, ⟨e3, ?_, ?_⟩, ⟨e4, ?_, ?_⟩⟩
  · rw [e1]
  · rw [e1]
  · rw [e2]
  · rw [e2]
  · rw [e3]
  · rw [e3]
  · rw [e4]
  · rw [e4]

/-- Witness for C17: an EMI form without principal, a GST form without amount,
a currency form with twice the same code and a BMI form without weight, each
holding earlier results and one history entry. -/
theorem handlers_stop_on_error_witness :
    (EMICalculator.handleCalculate ⟨"new", "entry"⟩
        ⟨"", "10", "12", "years", .unmodelled, [⟨"old", "entry"⟩], ⟨none, none, none⟩⟩).history
        = [⟨"old", "entry"⟩]
      ∧ (GSTCalculator.handleCalculate ⟨"new", "entry"⟩
        ⟨"", "18", "add", .unmodelled, [⟨"old", "entry"⟩], ⟨none⟩⟩).history
        = [⟨"old", "entry"⟩]
      ∧ (CurrencyConverter.handleConvert ⟨"new", "entry"⟩
        ⟨"", "USD", "USD", .unmodelled, [⟨"old", "entry"⟩], ⟨none, none⟩⟩).history
        = [⟨"old", "entry"⟩]
      ∧ (BMICalculator.handleCalculate ⟨"new", "entry"⟩
        ⟨"", "170", "imperial", .unmodelled, [⟨"old", "entry"⟩], ⟨none, none⟩⟩).history
        = [⟨"old", "entry"⟩] := by
  have h := handlers_stop_on_error ⟨"new", "entry"⟩
    ⟨"", "10", "12", "years", .unmodelled, [⟨"old", "entry"⟩], ⟨none, none, none⟩⟩
    ⟨"", "18", "add", .unmodelled, [⟨"old", "entry"⟩], ⟨none⟩⟩
    ⟨"", "USD", "USD", .unmodelled, [⟨"old", "entry"⟩], ⟨none, none⟩⟩
    ⟨"", "170", "imperial", .unmodelled, [⟨"old", "entry"⟩], ⟨none, none⟩⟩
    (by simp [EMICalculator.validateInputs, EMIErrors.isEmpty])
    (by simp [GSTCalculator.validateInputs, GSTErrors.isEmpty])
    (by simp [CurrencyConverter.validateInputs, CurrencyErrors.isEmpty])
    (by simp [BMICalculator.validateInputs, BMIErrors.isEmpty])
  exact ⟨h.1.2.2, h.2.1.2.2, h.2.2.1.2.2, h.2.2.2.2.2⟩

/-- The length of a history after one more entry. -/
theorem pushHistory_length (historyEntry : HistoryEntry) (history : List HistoryEntry) :
    (pushHistory historyEntry history).length = min (history.length + 1) 10 := by
  simp only [pushHistory, List.length_cons, List.length_take]
  omega

/-- A property kept by every step holds after any sequence of steps. -/
theorem foldl_keeps {σ α : Type} (P : σ → Prop) (f : σ → α → σ)
    (hf : ∀ s a, P s → P (f s a)) (l : List α) (s : σ) (hs : P s) : P (l.foldl f s) := by
  induction l generalizing s with
  | nil => exact hs
  | cons a t ih => exact ih (f s a) (hf s a hs)

/-- No action of the EMI page makes a history longer than 10. -/
theorem emi_step_keeps_bound (s : EMICalculatorState) (a : EMIAction)
    (hs : s.history.length ≤ 10) : (EMICalculator.step s a).history.length ≤ 10 := by
  cases a with
  | calculate historyEntry =>
    simp only [EMICalculator.step, EMICalculator.handleCalculate]
    split_ifs
    · exact hs
    · simp only [pushHistory_length]
      omega
  | clearHistory => simp [EMICalculator.step, EMICalculator.handleClearHistory]
  | _ => exact hs

/-- No action of the GST page makes a history longer than 10. -/
theorem gst_step_keeps_bound (s : GSTCalculatorState) (a : GSTAction)
    (hs : s.history.length ≤ 10) : (GSTCalculator.step s a).history.length ≤ 10 := by
  cases a with
  | calculate historyEntry =>
    simp only [GSTCalculator.step, GSTCalculator.handleCalculate]
    split_ifs
    · exact hs
    · simp only [pushHistory_length]
      omega
  | clearHistory => simp [GSTCalculator.step, GSTCalculator.handleClearHistory]
  | _ => exact hs

/-- No action of the currency page makes a history longer than 10. -/
theorem currency_step_keeps_bound (s : CurrencyConverterState) (a : CurrencyAction)
    (hs : s.history.length ≤ 10) : (CurrencyConverter.step s a).history.length ≤ 10 := by
  cases a with
  | convert historyEntry =>
    simp only [CurrencyConverter.step, CurrencyConverter.handleConvert]
    split_ifs
    · exact hs
    · simp only [pushHistory_length]
      omega
  | clearHistory => simp [CurrencyConverter.step, CurrencyConverter.handleClearHistory]
  | _ => exact hs

/-- No action of the BMI page makes a history longer than 10. -/
theorem bmi_step_keeps_bound (s : BMICalculatorState) (a : BMIAction)
    (hs : s.history.length ≤ 10) : (BMICalculator.step s a).history.length ≤ 10 := by
  cases a with
  | calculate historyEntry =>
    simp only [BMICalculator.step, BMICalculator.handleCalculate]
    by_cases h : (BMICalculator.validateInputs s).isEmpty = false
    · rw [if_pos h]
      exact hs
    · rw [if_neg h]
      simp only [pushHistory_length]
      omega
  | clearHistory => simp [BMICalculator.step, BMICalculator.handleClearHistory]
  | _ => exact hs

/-- C18: the history list is bounded and newest-first.  On each page a
calculation whose validation succeeds turns a history h into the new entry
followed by the first 9 entries of h in their order, of length
min(length h + 1, 10); and from the empty history of the start no sequence of
actions (field edits, calculate, reset, clear history, swap) yields a history
longer than 10. -/
theorem history_bounded (historyEntry : HistoryEntry)
    (emi : EMICalculatorState) (gst : GSTCalculatorState)
    (cur : CurrencyConverterState) (bmi : BMICalculatorState)
    (emiActions : List EMIAction) (gstActions : List GSTAction)
    (curActions : List CurrencyAction) (bmiActions : List BMIAction)
    (h1 : (EMICalculator.validateInputs emi).isEmpty = true)
    (h2 : (GSTCalculator.validateInputs gst).isEmpty = true)
    (h3 : (CurrencyConverter.validateInputs cur).isEmpty = true)
    (h4 : (BMICalculator.validateInputs bmi).isEmpty = true) :
    ((EMICalculator.handleCalculate historyEntry emi).history
          = historyEntry :: emi.history.take 9
        ∧ (EMICalculator.handleCalculate historyEntry emi).history.length
          = min (emi.history.length + 1) 10
        ∧ (EMICalculator.run emiActions).history.length ≤ 10)
      ∧ ((GSTCalculator.handleCalculate historyEntry gst).history
          = historyEntry :: gst.history.take 9
        ∧ (GSTCalculator.handleCalculate historyEntry gst).history.length
          = min (gst.history.length + 1) 10
        ∧ (GSTCalculator.run gstActions).history.length ≤ 10)
      ∧ ((CurrencyConverter.handleConvert historyEntry cur).history
          = historyEntry :: cur.history.take 9
        ∧ (CurrencyConverter.handleConvert historyEntry cur).history.length
          = min (cur.history.length + 1) 10
        ∧ (CurrencyConverter.run curActions).history.length ≤ 10)
      ∧ ((BMICalculator.handleCalculate historyEntry bmi).history
          = historyEntry :: bmi.history.take 9
        ∧ (BMICalculator.handleCalculate historyEntry bmi).history.length
          = min (bmi.history.length + 1) 10
        ∧ (BMICalculator.run bmiActions).history.length ≤ 10) := by
  have e1 : (EMICalculator.handleCalculate historyEntry emi).history
      = pushHistory historyEntry emi.history := by
    simp [EMICalculator.handleCalculate, h1]
  have e2 : (GSTCalculator.handleCalculate historyEntry gst).history
      = pushHistory historyEntry gst.history := by
    simp [GSTCalculator.handleCalculate, h2]
  have e3 : (CurrencyConverter.handleConvert historyEntry cur).history
      = pushHistory historyEntry cur.history := by
    simp [CurrencyConverter.handleConvert, h3]
  have e4 : (BMICalculator.handleCalculate historyEntry bmi).history
      = pushHistory historyEntry bmi.history := by
    simp [BMICalculator.handleCalculate, h4]
  refine ⟨⟨?_, ?_, ?_⟩, ⟨?_, ?_, ?_⟩, ⟨?_, ?_, ?_⟩, ⟨?_, ?_, ?_⟩⟩
  · rw [e1]; rfl
  · rw [e1]; exact pushHistory_length _ _
  · exact foldl_keeps (fun s => s.history.length ≤ 10) EMICalculator.step
      emi_step_keeps_bound emiActions EMICalculator.initialState (by decide)
  · rw [e2]; rfl
  · rw [e2]; exact pushHistory_length _ _
  · exact foldl_keeps (fun s => s.history.length ≤ 10) GSTCalculator.step
      gst_step_keeps_bound gstActions GSTCalculator.initialState (by decide)
  · rw [e3]; rfl
  · rw [e3]; exact pushHistory_length _ _
  · exact foldl_keeps (fun s => s.history.length ≤ 10) CurrencyConverter.step
      currency_step_keeps_bound curActions CurrencyConverter.initialState (by decide)
  · rw [e4]; rfl
  · rw [e4]; exact pushHistory_length _ _
  · exact foldl_keeps (fun s => s.history.length ≤ 10) BMICalculator.step
      bmi_step_keeps_bound bmiActions BMICalculator.initialState (by decide)

/-- Witness for C18: on each page an accepted form with ten earlier entries
keeps the new entry and the first nine, ten in all, and a concrete sequence of
actions stays within the bound. -/
theorem history_bounded_witness :
    ((EMICalculator.handleCalculate ⟨"new", "entry"⟩
        ⟨"100000", "10.5", "12", "months", .null, List.replicate 10 ⟨"old", "entry"⟩,
          ⟨none, none, none⟩⟩).history.length = 10
      ∧ (EMICalculator.run [.setPrincipal "100000", .setInterestRate "10.5", .setTenure "12",
          .calculate ⟨"new", "entry"⟩, .reset, .clearHistory]).history.length ≤ 10)
    ∧ ((GSTCalculator.handleCalculate ⟨"new", "entry"⟩
        ⟨"600", "10.5", "add", .null, List.replicate 10 ⟨"old", "entry"⟩,
          ⟨none⟩⟩).history.length = 10
      ∧ (GSTCalculator.run [.setAmount "600", .calculate ⟨"new", "entry"⟩]).history.length ≤ 10)
    ∧ ((CurrencyConverter.handleConvert ⟨"new", "entry"⟩
        ⟨"600", "USD", "INR", .null, List.replicate 10 ⟨"old", "entry"⟩,
          ⟨none, none⟩⟩).history.length = 10
      ∧ (CurrencyConverter.run [.setAmount "600", .swap,
          .convert ⟨"new", "entry"⟩]).history.length ≤ 10)
    ∧ ((BMICalculator.handleCalculate ⟨"new", "entry"⟩
        ⟨"600", "600", "imperial", .null, List.replicate 10 ⟨"old", "entry"⟩,
          ⟨none, none⟩⟩).history.length = 10
      ∧ (BMICalculator.run [.setUnit "imperial", .setWeight "600", .setHeight "600",
          .calculate ⟨"new", "entry"⟩]).history.length ≤ 10) := by
  have h := history_bounded ⟨"new", "entry"⟩
    ⟨"100000", "10.5", "12", "months", .null, List.replicate 10 ⟨"old", "entry"⟩,
      ⟨none, none, none⟩⟩
    ⟨"600", "10.5", "add", .null, List.replicate 10 ⟨"old", "entry"⟩, ⟨none⟩⟩
    ⟨"600", "USD", "INR", .null, List.replicate 10 ⟨"old", "entry"⟩, ⟨none, none⟩⟩
    ⟨"600", "600", "imperial", .null, List.replicate 10 ⟨"old", "entry"⟩, ⟨none, none⟩⟩
    [.setPrincipal "100000", .setInterestRate "10.5", .setTenure "12",
      .calculate ⟨"new", "entry"⟩, .reset, .clearHistory]
    [.setAmount "600", .calculate ⟨"new", "entry"⟩]
    [.setAmount "600", .swap, .convert ⟨"new", "entry"⟩]
    [.setUnit "imperial", .setWeight "600", .setHeight "600", .calculate ⟨"new", "entry"⟩]
    (by
      simp only [EMICalculator.validateInputs, parseFloat_100000, parseFloat_10_5, parseInt_12]
      simp [EMIErrors.isEmpty, JSNumber.le, JSNumber.lt]
      norm_num)
    (by
      simp [GSTCalculator.validateInputs, GSTErrors.isEmpty, parseFloat_600, JSNumber.le])
    (by
      simp [CurrencyConverter.validateInputs, CurrencyErrors.isEmpty, parseFloat_600,
        JSNumber.le])
    (by
      simp [BMICalculator.validateInputs, BMIErrors.isEmpty, parseFloat_600, JSNumber.le])
  exact ⟨⟨h.1.2.1, h.1.2.2⟩, ⟨h.2.1.2.1, h.2.1.2.2⟩, ⟨h.2.2.1.2.1, h.2.2.1.2.2⟩,
    ⟨h.2.2.2.2.1, h.2.2.2.2.2⟩⟩

/-- A code outside the table has no rate. -/
theorem rateOf_of_not_mem (code : String) (h : code ∉ currencyCodes) : rateOf code = none := by
  unfold rateOf
  rw [List.lookup_eq_none_iff]
  intro p hp
  rw [bne_iff_ne]
  intro hc
  exact h (hc ▸ List.mem_map_of_mem Prod.fst hp)

/-- C19 (as stated, refuted): with the unknown code "XYZ" as source (or as
target) `convertCurrency` signals nothing and returns a record, whose
convertedAmount and exchangeRate are NaN. -/
theorem convertCurrency_unknown_code_returns :
    "XYZ" ∉ currencyCodes
      ∧ convertCurrency 100 "XYZ" "INR" = ⟨100, none, none, "XYZ", "INR"⟩
      ∧ convertCurrency 100 "USD" "XYZ" = ⟨100, none, none, "USD", "XYZ"⟩ := by
  have hx : rateOf "XYZ" = none := rateOf_of_not_mem "XYZ" (by decide)
  refine ⟨by decide, ?_, ?_⟩
  · simp [convertCurrency, hx]
  · simp [convertCurrency, hx]

/-- C19 (amended): `convertCurrency` has no KeyNotFound-style failure: for
every amount, with a fromCurrency or a toCurrency outside `CURRENCY_RATES` it
still returns a CurrencyResult, in which originalAmount is the amount, the two
codes are those given, and convertedAmount and exchangeRate are NaN. -/
theorem convertCurrency_unknown_code (amount : ℚ) (fromCurrency toCurrency : String)
    (h : fromCurrency ∉ currencyCodes ∨ toCurrency ∉ currencyCodes) :
    convertCurrency amount fromCurrency toCurrency
      = ⟨amount, none, none, fromCurrency, toCurrency⟩ := by
  rcases h with h | h
  · simp [convertCurrency, rateOf_of_not_mem _ h]
  · simp [convertCurrency, rateOf_of_not_mem _ h]

/-- Witness for C19 (amended): 250 euros to the unknown code "BTC". -/
theorem convertCurrency_unknown_code_witness :
    convertCurrency 250 "EUR" "BTC" = ⟨250, none, none, "EUR", "BTC"⟩ :=
  convertCurrency_unknown_code 250 "EUR" "BTC" (Or.inr (by decide))

/-- Rounding a nonnegative rational gives a nonnegative integer. -/
theorem roundHalfEven_nonneg (x : ℚ) (hx : 0 ≤ x) : 0 ≤ roundHalfEven x := by
  have hf : 0 ≤ ⌊x⌋ := Int.floor_nonneg.mpr hx
  unfold roundHalfEven
  split_ifs <;> omega

/-- The double nearest to a natural number is +Infinity or a natural number. -/
theorem roundToDouble_nat_cases (n : ℕ) :
    roundToDouble (n : ℚ) = .posInfinity ∨ ∃ k : ℕ, roundToDouble (n : ℚ) = .finite (k : ℚ) := by
  by_cases hn : n < 2 ^ 53
  · exact Or.inr ⟨n, roundToDouble_nat n hn⟩
  · have h53 : 2 ^ 53 ≤ n := not_lt.mp hn
    have hlog : 53 ≤ Nat.log 2 n := Nat.le_log_of_pow_le (by norm_num) h53
    have he : ulpExponent (n : ℚ) = ((Nat.log 2 n - 52 : ℕ) : ℤ) := by
      unfold ulpExponent
      rw [abs_of_nonneg (Nat.cast_nonneg n), Int.log_natCast]
      omega
    have hm : 0 ≤ roundHalfEven ((n : ℚ) / 2 ^ ((Nat.log 2 n - 52 : ℕ) : ℤ)) :=
      roundHalfEven_nonneg _ (div_nonneg (Nat.cast_nonneg n) (le_of_lt (zpow_pos (by norm_num) _)))
    obtain ⟨m, hmk⟩ := Int.eq_ofNat_of_zero_le hm
    have hr : ((roundHalfEven ((n : ℚ) / 2 ^ ((Nat.log 2 n - 52 : ℕ) : ℤ)) : ℤ) : ℚ)
        * 2 ^ ((Nat.log 2 n - 52 : ℕ) : ℤ) = ((m * 2 ^ (Nat.log 2 n - 52) : ℕ) : ℚ) := by
      rw [hmk, zpow_natCast]
      push_cast
      rfl
    unfold roundToDouble
    simp only [he, hr]
    by_cases ho : doubleOverflow ≤ ((m * 2 ^ (Nat.log 2 n - 52) : ℕ) : ℚ)
    · left
      rw [if_pos ho]
    · right
      refine ⟨m * 2 ^ (Nat.log 2 n - 52), ?_⟩
      rw [if_neg ho, if_neg]
      exact not_le.mpr (lt_of_lt_of_le (neg_lt_zero.mpr doubleOverflow_pos) (Nat.cast_nonneg _))

/-- What `unsignedInteger` reads is NaN, +Infinity or a natural number. -/
theorem unsignedInteger_cases (cs : List Char) :
    unsignedInteger cs = .nan ∨ unsignedInteger cs = .posInfinity
      ∨ ∃ n : ℕ, unsignedInteger cs = .finite (n : ℚ) := by
  unfold unsignedInteger
  split
  · dsimp only
    split_ifs
    · exact Or.inl rfl
    · exact Or.inr (roundToDouble_nat_cases _)
    · exact Or.inr (roundToDouble_nat_cases _)
  · split_ifs
    · exact Or.inl rfl
    · exact Or.inr (roundToDouble_nat_cases _)

/-- A finite value read by `parseInt` is a natural number or the opposite of
one. -/
theorem parseInt_finite (text : String) (q : ℚ) (h : parseInt text = .finite q) :
    ∃ n : ℕ, q = (n : ℚ) ∨ q = -(n : ℚ) := by
  have pos : ∀ cs, unsignedInteger cs = .finite q → ∃ n : ℕ, q = (n : ℚ) ∨ q = -(n : ℚ) := by
    intro cs hc
    rcases unsignedInteger_cases cs with h1 | h1 | ⟨n, h1⟩
    · rw [h1] at hc
      exact JSNumber.noConfusion hc
    · rw [h1] at hc
      exact JSNumber.noConfusion hc
    · rw [h1] at hc
      exact ⟨n, Or.inl (JSNumber.finite.inj hc).symm⟩
  have neg : ∀ cs, (unsignedInteger cs).neg = .finite q
      → ∃ n : ℕ, q = (n : ℚ) ∨ q = -(n : ℚ) := by
    intro cs hc
    rcases unsignedInteger_cases cs with h1 | h1 | ⟨n, h1⟩
    · rw [h1] at hc
      exact JSNumber.noConfusion hc
    · rw [h1] at hc
      exact JSNumber.noConfusion hc
    · rw [h1] at hc
      exact ⟨n, Or.inr (JSNumber.finite.inj hc).symm⟩
  unfold parseInt at h
  split at h
  · exact pos _ h
  · exact neg _ h
  · exact pos _ h

/-- C20 (as stated, refuted): the EMI form with tenure "abc" is accepted by
validation, and the tenure in months that the handler then passes to
`calculateEMI` is NaN, under either unit. -/
theorem emi_tenure_unparsed_is_nan :
    (EMICalculator.validateInputs
        ⟨"100000", "10.5", "abc", "months", .null, [], ⟨none, none, none⟩⟩).isEmpty = true
      ∧ EMICalculator.tenureInMonths
        ⟨"100000", "10.5", "abc", "months", .null, [], ⟨none, none, none⟩⟩ = .nan
      ∧ (EMICalculator.validateInputs
        ⟨"100000", "10.5", "abc", "years", .null, [], ⟨none, none, none⟩⟩).isEmpty = true
      ∧ EMICalculator.tenureInMonths
        ⟨"100000", "10.5", "abc", "years", .null, [], ⟨none, none, none⟩⟩ = .nan := by
  refine ⟨?_, ?_, ?_, ?_⟩
  · simp only [EMICalculator.validateInputs, parseFloat_100000, parseFloat_10_5, parseInt_abc]
    simp [EMIErrors.isEmpty, JSNumber.le, JSNumber.lt]
    norm_num
  · simp [EMICalculator.tenureInMonths, parseInt_abc]
  · simp only [EMICalculator.validateInputs, parseFloat_100000, parseFloat_10_5, parseInt_abc]
    simp [EMIErrors.isEmpty, JSNumber.le, JSNumber.lt]
    norm_num
  · simp [EMICalculator.tenureInMonths, parseInt_abc, JSNumber.mul]

/-- C20 (amended): whenever EMI validation accepts the form and
`parseInt(tenure)` is a finite number, that number is a positive integer n,
and the tenure in months that the handler passes to `calculateEMI` is n when
the unit is not years (months) and the double product n * 12 when the unit is
years, which is the integer n * 12 itself whenever n * 12 < 2^53. -/
theorem emi_tenure_in_months (historyEntry : HistoryEntry)
    (s : EMICalculatorState) (q : ℚ)
    (hv : (EMICalculator.validateInputs s).isEmpty = true)
    (hq : parseInt s.tenure = .finite q) :
    ∃ n : ℕ, 0 < n ∧ q = (n : ℚ)
      ∧ (s.tenureType ≠ "years" → EMICalculator.tenureInMonths s = .finite (n : ℚ))
      ∧ (s.tenureType = "years"
        → EMICalculator.tenureInMonths s = roundToDouble ((n : ℚ) * 12))
      ∧ (s.tenureType = "years" → n * 12 < 2 ^ 53
        → EMICalculator.tenureInMonths s = .finite ((n * 12 : ℕ) : ℚ))
      ∧ (EMICalculator.handleCalculate historyEntry s).results
        = callCalculateEMI (parseFloat s.principal) (parseFloat s.interestRate)
            (EMICalculator.tenureInMonths s) := by
  have ht := ((emi_validation_accepts_iff s).mp hv).2.2
  have hle : ¬ (parseInt s.tenure).le 0 = true := fun h => ht (Or.inr h)
  have hres : (EMICalculator.handleCalculate historyEntry s).results
      = callCalculateEMI (parseFloat s.principal) (parseFloat s.interestRate)
          (EMICalculator.tenureInMonths s) := by
    simp [EMICalculator.handleCalculate, hv]
  have hqpos : 0 < q := by
    by_contra hc
    apply hle
    rw [hq]
    simpa [JSNumber.le] using not_lt.mp hc
  obtain ⟨n, hn | hn⟩ := parseInt_finite s.tenure q hq
  · have hpos : 0 < n := by
      have : (0 : ℚ) < (n : ℚ) := hn ▸ hqpos
      exact_mod_cast this
    have hyears : s.tenureType = "years"
        → EMICalculator.tenureInMonths s = roundToDouble ((n : ℚ) * 12) := by
      intro hy
      simp [EMICalculator.tenureInMonths, hy, hq, hn, JSNumber.mul]
    refine ⟨n, hpos, hn, ?_, hyears, ?_, hres⟩
    · intro hm
      simp [EMICalculator.tenureInMonths, hm, hq, hn]
    · intro hy hb
      rw [hyears hy]
      have h12 : ((n : ℚ) * 12) = ((n * 12 : ℕ) : ℚ) := by push_cast; ring
      rw [h12]
      exact roundToDouble_nat (n * 12) hb
  · exfalso
    have : (0 : ℚ) ≤ (n : ℚ) := Nat.cast_nonneg n
    linarith

/-- Witness for C20 (amended): a tenure of "12" in years is passed as 144 months. -/
theorem emi_tenure_in_months_witness :
    EMICalculator.tenureInMonths
        ⟨"100000", "10.5", "12", "years", .null, [], ⟨none, none, none⟩⟩
      = .finite 144 := by
  obtain ⟨n, -, hn, -, -, hy, -⟩ := emi_tenure_in_months ⟨"new", "entry"⟩
    ⟨"100000", "10.5", "12", "years", .null, [], ⟨none, none, none⟩⟩ 12
    (by
      simp only [EMICalculator.validateInputs, parseFloat_100000, parseFloat_10_5, parseInt_12]
      simp [EMIErrors.isEmpty, JSNumber.le, JSNumber.lt]
      norm_num)
    parseInt_12
  have h12 : n = 12 := by exact_mod_cast hn.symm
  subst h12
  rw [hy rfl (by norm_num)]
  norm_num

/-- C21 (amended): in exact arithmetic the exchange rates reported by
`convertCurrency` compose without arbitrage: for every amount x and every
three codes A, B, C of `CURRENCY_RATES`,
exchangeRate(A,B) * exchangeRate(B,C) = exchangeRate(A,C),
and converting x from A to B and the result from B to C gives the
convertedAmount of converting x from A to C directly. -/
theorem convertCurrency_compose (x : ℚ) (a b c : String)
    (ha : a ∈ currencyCodes) (hb : b ∈ currencyCodes) (hc : c ∈ currencyCodes) :
    (∃ eab ebc eac : ℚ, (convertCurrency x a b).exchangeRate = some eab
        ∧ (convertCurrency x b c).exchangeRate = some ebc
        ∧ (convertCurrency x a c).exchangeRate = some eac
        ∧ eab * ebc = eac)
      ∧ ∃ y z : ℚ, (convertCurrency x a b).convertedAmount = some y
        ∧ (convertCurrency y b c).convertedAmount = some z
        ∧ (convertCurrency x a c).convertedAmount = some z := by
  obtain ⟨ra, hra, hpa⟩ := rateOf_of_mem a ha
  obtain ⟨rb, hrb, hpb⟩ := rateOf_of_mem b hb
  obtain ⟨rc, hrc, -⟩ := rateOf_of_mem c hc
  have hra0 : ra ≠ 0 := ne_of_gt hpa
  have hrb0 : rb ≠ 0 := ne_of_gt hpb
  constructor
  · refine ⟨rb / ra, rc / rb, rc / ra, ?_, ?_, ?_, ?_⟩
    · rw [convertCurrency_of_rates _ _ _ _ _ hra hrb]
    · rw [convertCurrency_of_rates _ _ _ _ _ hrb hrc]
    · rw [convertCurrency_of_rates _ _ _ _ _ hra hrc]
    · field_simp
      ring
  · refine ⟨x / ra * rb, x / ra * rc, ?_, ?_, ?_⟩
    · rw [convertCurrency_of_rates _ _ _ _ _ hra hrb]
    · rw [convertCurrency_of_rates _ _ _ _ _ hrb hrc]
      simp only [Option.some.injEq]
      field_simp
      ring
    · rw [convertCurrency_of_rates _ _ _ _ _ hra hrc]

/-- Witness for C21: 500 rupees to euros and on to yen, against rupees to yen. -/
theorem convertCurrency_compose_witness :
    (∃ eab ebc eac : ℚ, (convertCurrency 500 "INR" "EUR").exchangeRate = some eab
        ∧ (convertCurrency 500 "EUR" "JPY").exchangeRate = some ebc
        ∧ (convertCurrency 500 "INR" "JPY").exchangeRate = some eac
        ∧ eab * ebc = eac)
      ∧ ∃ y z : ℚ, (convertCurrency 500 "INR" "EUR").convertedAmount = some y
        ∧ (convertCurrency y "EUR" "JPY").convertedAmount = some z
        ∧ (convertCurrency 500 "INR" "JPY").convertedAmount = some z :=
  convertCurrency_compose 500 "INR" "EUR" "JPY" (by decide) (by decide) (by decide)

/-- C22: `calculateGST` treats every mode value other than 'add' as extract
mode: for every amount, rate and mode string m different from 'add' the result
is the record of extract mode, the same as for 'subtract'; no mode value is
rejected. -/
theorem calculateGST_other_mode (amount gstRate : ℚ) (m : String) (hm : m ≠ "add") :
    calculateGST amount gstRate m = calculateGST amount gstRate "subtract"
      ∧ calculateGST amount gstRate m
        = ⟨amount / (1 + gstRate / 100), amount - amount / (1 + gstRate / 100), amount⟩ := by
  have hs : ¬ ("subtract" : String) = "add" := by decide
  simp only [calculateGST, if_neg hm, if_neg hs, and_self]

/-- Witness for C22: the mode strings "extract" and "" on 1180 at 18%. -/
theorem calculateGST_other_mode_witness :
    calculateGST 1180 18 "extract" = calculateGST 1180 18 "subtract"
      ∧ calculateGST 1180 18 "" = calculateGST 1180 18 "subtract" :=
  ⟨(calculateGST_other_mode 1180 18 "extract" (by decide)).1,
    (calculateGST_other_mode 1180 18 "" (by decide)).1⟩

/-- The bmi field of `calculateBMI_double`, whatever the branch. -/
theorem calculateBMI_double_bmi (weight height : JSNumber) :
    (calculateBMI_double weight height).bmi
      = weight.div ((height.div (.finite 100)).mul (height.div (.finite 100))) := by
  unfold calculateBMI_double
  simp only
  split_ifs <;> rfl

/-- A rational halfway between two integers is rounded to the even one. -/
theorem roundHalfEven_tie (x : ℚ) (m : ℤ)
    (h : x = (m : ℚ) + 1 / 2 ∨ x = (m : ℚ) - 1 / 2) (hm : m % 2 = 0) :
    roundHalfEven x = m := by
  rcases h with h | h
  · have hf : ⌊x⌋ = m := by
      rw [Int.floor_eq_iff]
      constructor <;> linarith
    have h1 : ¬ x - (m : ℚ) < 1 / 2 := by
      rw [h]
      norm_num
    have h2 : ¬ 1 / 2 < x - (m : ℚ) := by
      rw [h]
      norm_num
    simp only [roundHalfEven, hf, if_neg h1, if_neg h2, if_pos hm]
  · have hf : ⌊x⌋ = m - 1 := by
      rw [Int.floor_eq_iff]
      push_cast
      constructor <;> linarith
    have h1 : ¬ x - ((m - 1 : ℤ) : ℚ) < 1 / 2 := by
      rw [h]
      push_cast
      norm_num
    have h2 : ¬ 1 / 2 < x - ((m - 1 : ℤ) : ℚ) := by
      rw [h]
      push_cast
      norm_num
    have h3 : ¬ (m - 1) % 2 = 0 := by omega
    simp only [roundHalfEven, hf, if_neg h1, if_neg h2, if_neg h3]
    omega

/-- The double nearest to a positive `q` of the normal range that lies halfway
between two doubles: the one with the even mantissa. -/
theorem roundToDouble_normal_tie (q v : ℚ) (k m : ℤ) (hk : -1022 ≤ k)
    (h1 : (2 : ℚ) ^ k ≤ q) (h2 : q < (2 : ℚ) ^ (k + 1))
    (h3 : q / 2 ^ (k - 52) = (m : ℚ) + 1 / 2 ∨ q / 2 ^ (k - 52) = (m : ℚ) - 1 / 2)
    (hm : m % 2 = 0) (hm0 : 0 ≤ m)
    (hv : v = (m : ℚ) * 2 ^ (k - 52)) (h5 : v < doubleOverflow) :
    roundToDouble q = .finite v := by
  have htwo : ∀ z : ℤ, (0 : ℚ) < 2 ^ z := fun z => zpow_pos (by norm_num) z
  have hv0 : 0 ≤ v := by
    rw [hv]
    exact mul_nonneg (by exact_mod_cast hm0) (le_of_lt (htwo _))
  unfold roundToDouble
  simp only [ulpExponent_normal q k hk h1 h2, roundHalfEven_tie _ m h3 hm, ← hv]
  rw [if_neg (not_le.mpr h5), if_neg]
  exact not_le.mpr (lt_of_lt_of_le (neg_lt_zero.mpr doubleOverflow_pos) hv0)

/-- C11 (as stated, refuted): in doubles convertCurrency(1, 'GBP', 'GBP')
returns convertedAmount 0.9999999999999999, not the amount 1: dividing by the
rate 0.79 and multiplying by it again loses the last bit. -/
theorem convertCurrency_same_code_in_doubles :
    "GBP" ∈ currencyCodes
      ∧ (convertCurrency_double (.finite 1) "GBP" "GBP").convertedAmount
        = .finite (9007199254740991 / 9007199254740992)
      ∧ (9007199254740991 / 9007199254740992 : ℚ) < 1 := by
  have h1 : rateOfDouble "GBP" = .finite (889460926405673 / 1125899906842624) := by
    have hr : rateOfDouble "GBP" = roundToDouble 0.79 := by
      simp [rateOfDouble, rateOf, CURRENCY_RATES, List.lookup]
    rw [hr]
    exact roundToDouble_normal (0.79)
        (889460926405673 / 1125899906842624) (-1) 7115687411245384
        (by norm_num) (by norm_num) (by norm_num) (by norm_num) (by norm_num) (by norm_num)
        (lt_doubleOverflow _ (by norm_num))
  have h2 : (JSNumber.finite 1).div
        (.finite (889460926405673 / 1125899906842624))
      = .finite (5700759021987969 / 4503599627370496) :=
    div_finite _ _ _ (by norm_num)
      (roundToDouble_normal (1
          / (889460926405673 / 1125899906842624))
        (5700759021987969 / 4503599627370496) 0 5700759021987969
        (by norm_num) (by norm_num) (by norm_num) (by norm_num) (by norm_num) (by norm_num)
        (lt_doubleOverflow _ (by norm_num)))
  have h3 : (JSNumber.finite (5700759021987969 / 4503599627370496)).mul
        (.finite (889460926405673 / 1125899906842624))
      = .finite (9007199254740991 / 9007199254740992) :=
    mul_finite _ _ _
      (roundToDouble_normal ((5700759021987969 / 4503599627370496)
          * (889460926405673 / 1125899906842624))
        (9007199254740991 / 9007199254740992) (-1) 9007199254740991
        (by norm_num) (by norm_num) (by norm_num) (by norm_num) (by norm_num) (by norm_num)
        (lt_doubleOverflow _ (by norm_num)))
  refine ⟨by decide, ?_, by norm_num⟩
  simp only [convertCurrency_double, h1, h2, h3]

/-- C9 (as stated, refuted): in doubles convertCurrency(100, 'GBP', 'INR')
returns convertedAmount 10521.518987341771, while originalAmount * exchangeRate
is 10521.518987341773: the pivot computation and the direct ratio round
differently. -/
theorem convertCurrency_pivot_in_doubles :
    (convertCurrency_double (.finite 100) "GBP" "INR").convertedAmount
        = .finite (5784266234224121 / 549755813888)
      ∧ (convertCurrency_double (.finite 100) "GBP" "INR").originalAmount.mul
          (convertCurrency_double (.finite 100) "GBP" "INR").exchangeRate
        = .finite (2892133117112061 / 274877906944)
      ∧ (5784266234224121 / 549755813888 : ℚ) < 2892133117112061 / 274877906944 := by
  have h1 : rateOfDouble "GBP" = .finite (889460926405673 / 1125899906842624) := by
    have hr : rateOfDouble "GBP" = roundToDouble 0.79 := by
      simp [rateOfDouble, rateOf, CURRENCY_RATES, List.lookup]
    rw [hr]
    exact roundToDouble_normal (0.79)
        (889460926405673 / 1125899906842624) (-1) 7115687411245384
        (by norm_num) (by norm_num) (by norm_num) (by norm_num) (by norm_num) (by norm_num)
        (lt_doubleOverflow _ (by norm_num))
  have h2 : rateOfDouble "INR" = .finite (731131252005929 / 8796093022208) := by
    have hr : rateOfDouble "INR" = roundToDouble 83.12 := by
      simp [rateOfDouble, rateOf, CURRENCY_RATES, List.lookup]
    rw [hr]
    exact roundToDouble_normal (83.12)
        (731131252005929 / 8796093022208) 6 5849050016047432
        (by norm_num) (by norm_num) (by norm_num) (by norm_num) (by norm_num) (by norm_num)
        (lt_doubleOverflow _ (by norm_num))
  have h3 : (JSNumber.finite 100).div
        (.finite (889460926405673 / 1125899906842624))
      = .finite (4453717985928101 / 35184372088832) :=
    div_finite _ _ _ (by norm_num)
      (roundToDouble_normal (100
          / (889460926405673 / 1125899906842624))
        (4453717985928101 / 35184372088832) 6 8907435971856202
        (by norm_num) (by norm_num) (by norm_num) (by norm_num) (by norm_num) (by norm_num)
        (lt_doubleOverflow _ (by norm_num)))
  have h4 : (JSNumber.finite (4453717985928101 / 35184372088832)).mul
        (.finite (731131252005929 / 8796093022208))
      = .finite (5784266234224121 / 549755813888) :=
    mul_finite _ _ _
      (roundToDouble_normal ((4453717985928101 / 35184372088832)
          * (731131252005929 / 8796093022208))
        (5784266234224121 / 549755813888) 13 5784266234224121
        (by norm_num) (by norm_num) (by norm_num) (by norm_num) (by norm_num) (by norm_num)
        (lt_doubleOverflow _ (by norm_num)))
  have h5 : (JSNumber.finite (731131252005929 / 8796093022208)).div
        (.finite (889460926405673 / 1125899906842624))
      = .finite (1850965194951719 / 17592186044416) :=
    div_finite _ _ _ (by norm_num)
      (roundToDouble_normal ((731131252005929 / 8796093022208)
          / (889460926405673 / 1125899906842624))
        (1850965194951719 / 17592186044416) 6 7403860779806876
        (by norm_num) (by norm_num) (by norm_num) (by norm_num) (by norm_num) (by norm_num)
        (lt_doubleOverflow _ (by norm_num)))
  have h6 : (JSNumber.finite 100).mul
        (.finite (1850965194951719 / 17592186044416))
      = .finite (2892133117112061 / 274877906944) :=
    mul_finite _ _ _
      (roundToDouble_normal (100
          * (1850965194951719 / 17592186044416))
        (2892133117112061 / 274877906944) 13 5784266234224122
        (by norm_num) (by norm_num) (by norm_num) (by norm_num) (by norm_num) (by norm_num)
        (lt_doubleOverflow _ (by norm_num)))
  refine ⟨?_, ?_, by norm_num⟩
  · simp only [convertCurrency_double, h1, h2, h3, h4]
  · simp only [convertCurrency_double, h1, h2, h5, h6]

/-- C10 (as stated, refuted): in doubles 100 pounds converted to rupees and the
convertedAmount converted back gives 99.99999999999999, not 100. -/
theorem convertCurrency_inverse_in_doubles :
    (convertCurrency_double (.finite 100) "GBP" "INR").convertedAmount
        = .finite (5784266234224121 / 549755813888)
      ∧ (convertCurrency_double (.finite (5784266234224121 / 549755813888)) "INR" "GBP").convertedAmount
        = .finite (7036874417766399 / 70368744177664)
      ∧ (7036874417766399 / 70368744177664 : ℚ) < 100 := by
  have h1 : rateOfDouble "GBP" = .finite (889460926405673 / 1125899906842624) := by
    have hr : rateOfDouble "GBP" = roundToDouble 0.79 := by
      simp [rateOfDouble, rateOf, CURRENCY_RATES, List.lookup]
    rw [hr]
    exact roundToDouble_normal (0.79)
        (889460926405673 / 1125899906842624) (-1) 7115687411245384
        (by norm_num) (by norm_num) (by norm_num) (by norm_num) (by norm_num) (by norm_num)
        (lt_doubleOverflow _ (by norm_num))
  have h2 : rateOfDouble "INR" = .finite (731131252005929 / 8796093022208) := by
    have hr : rateOfDouble "INR" = roundToDouble 83.12 := by
      simp [rateOfDouble, rateOf, CURRENCY_RATES, List.lookup]
    rw [hr]
    exact roundToDouble_normal (83.12)
        (731131252005929 / 8796093022208) 6 5849050016047432
        (by norm_num) (by norm_num) (by norm_num) (by norm_num) (by norm_num) (by norm_num)
        (lt_doubleOverflow _ (by norm_num))
  have h3 : (JSNumber.finite 100).div
        (.finite (889460926405673 / 1125899906842624))
      = .finite (4453717985928101 / 35184372088832) :=
    div_finite _ _ _ (by norm_num)
      (roundToDouble_normal (100
          / (889460926405673 / 1125899906842624))
        (4453717985928101 / 35184372088832) 6 8907435971856202
        (by norm_num) (by norm_num) (by norm_num) (by norm_num) (by norm_num) (by norm_num)
        (lt_doubleOverflow _ (by norm_num)))
  have h4 : (JSNumber.finite (4453717985928101 / 35184372088832)).mul
        (.finite (731131252005929 / 8796093022208))
      = .finite (5784266234224121 / 549755813888) :=
    mul_finite _ _ _
      (roundToDouble_normal ((4453717985928101 / 35184372088832)
          * (731131252005929 / 8796093022208))
        (5784266234224121 / 549755813888) 13 5784266234224121
        (by norm_num) (by norm_num) (by norm_num) (by norm_num) (by norm_num) (by norm_num)
        (lt_doubleOverflow _ (by norm_num)))
  have h5 : (JSNumber.finite (5784266234224121 / 549755813888)).div
        (.finite (731131252005929 / 8796093022208))
      = .finite (8907435971856201 / 70368744177664) :=
    div_finite _ _ _ (by norm_num)
      (roundToDouble_normal ((5784266234224121 / 549755813888)
          / (731131252005929 / 8796093022208))
        (8907435971856201 / 70368744177664) 6 8907435971856201
        (by norm_num) (by norm_num) (by norm_num) (by norm_num) (by norm_num) (by norm_num)
        (lt_doubleOverflow _ (by norm_num)))
  have h6 : (JSNumber.finite (8907435971856201 / 70368744177664)).mul
        (.finite (889460926405673 / 1125899906842624))
      = .finite (7036874417766399 / 70368744177664) :=
    mul_finite _ _ _
      (roundToDouble_normal ((8907435971856201 / 70368744177664)
          * (889460926405673 / 1125899906842624))
        (7036874417766399 / 70368744177664) 6 7036874417766399
        (by norm_num) (by norm_num) (by norm_num) (by norm_num) (by norm_num) (by norm_num)
        (lt_doubleOverflow _ (by norm_num)))
  refine ⟨?_, ?_, by norm_num⟩
  · simp only [convertCurrency_double, h1, h2, h3, h4]
  · simp only [convertCurrency_double, h1, h2, h5, h6]

/-- C21 (as stated, refuted): in doubles the reported rates do not compose:
exchangeRate(USD,GBP) * exchangeRate(GBP,CNY) is 7.239999999999999 while
exchangeRate(USD,CNY) is 7.24. -/
theorem convertCurrency_compose_in_doubles :
    (convertCurrency_double (.finite 1) "USD" "GBP").exchangeRate.mul
          (convertCurrency_double (.finite 1) "GBP" "CNY").exchangeRate
        = .finite (8151515325540597 / 1125899906842624)
      ∧ (convertCurrency_double (.finite 1) "USD" "CNY").exchangeRate
        = .finite (4075757662770299 / 562949953421312)
      ∧ (8151515325540597 / 1125899906842624 : ℚ) < 4075757662770299 / 562949953421312 := by
  have h1 : rateOfDouble "USD" = .finite 1 := by
    have hr : rateOfDouble "USD" = roundToDouble 1 := by
      simp [rateOfDouble, rateOf, CURRENCY_RATES, List.lookup]
    rw [hr]
    exact roundToDouble_normal (1)
        1 0 4503599627370496
        (by norm_num) (by norm_num) (by norm_num) (by norm_num) (by norm_num) (by norm_num)
        (lt_doubleOverflow _ (by norm_num))
  have h2 : rateOfDouble "GBP" = .finite (889460926405673 / 1125899906842624) := by
    have hr : rateOfDouble "GBP" = roundToDouble 0.79 := by
      simp [rateOfDouble, rateOf, CURRENCY_RATES, List.lookup]
    rw [hr]
    exact roundToDouble_normal (0.79)
        (889460926405673 / 1125899906842624) (-1) 7115687411245384
        (by norm_num) (by norm_num) (by norm_num) (by norm_num) (by norm_num) (by norm_num)
        (lt_doubleOverflow _ (by norm_num))
  have h3 : rateOfDouble "CNY" = .finite (4075757662770299 / 562949953421312) := by
    have hr : rateOfDouble "CNY" = roundToDouble 7.24 := by
      simp [rateOfDouble, rateOf, CURRENCY_RATES, List.lookup]
    rw [hr]
    exact roundToDouble_normal (7.24)
        (4075757662770299 / 562949953421312) 2 8151515325540598
        (by norm_num) (by norm_num) (by norm_num) (by norm_num) (by norm_num) (by norm_num)
        (lt_doubleOverflow _ (by norm_num))
  have h4 : (JSNumber.finite (889460926405673 / 1125899906842624)).div
        (.finite 1)
      = .finite (889460926405673 / 1125899906842624) :=
    div_finite _ _ _ (by norm_num)
      (roundToDouble_normal ((889460926405673 / 1125899906842624)
          / 1)
        (889460926405673 / 1125899906842624) (-1) 7115687411245384
        (by norm_num) (by norm_num) (by norm_num) (by norm_num) (by norm_num) (by norm_num)
        (lt_doubleOverflow _ (by norm_num)))
  have h5 : (JSNumber.finite (4075757662770299 / 562949953421312)).div
        (.finite (889460926405673 / 1125899906842624))
      = .finite (644898364362389 / 70368744177664) :=
    div_finite _ _ _ (by norm_num)
      (roundToDouble_normal ((4075757662770299 / 562949953421312)
          / (889460926405673 / 1125899906842624))
        (644898364362389 / 70368744177664) 3 5159186914899112
        (by norm_num) (by norm_num) (by norm_num) (by norm_num) (by norm_num) (by norm_num)
        (lt_doubleOverflow _ (by norm_num)))
  have h6 : (JSNumber.finite (4075757662770299 / 562949953421312)).div
        (.finite 1)
      = .finite (4075757662770299 / 562949953421312) :=
    div_finite _ _ _ (by norm_num)
      (roundToDouble_normal ((4075757662770299 / 562949953421312)
          / 1)
        (4075757662770299 / 562949953421312) 2 8151515325540598
        (by norm_num) (by norm_num) (by norm_num) (by norm_num) (by norm_num) (by norm_num)
        (lt_doubleOverflow _ (by norm_num)))
  have h7 : (JSNumber.finite (889460926405673 / 1125899906842624)).mul
        (.finite (644898364362389 / 70368744177664))
      = .finite (8151515325540597 / 1125899906842624) :=
    mul_finite _ _ _
      (roundToDouble_normal ((889460926405673 / 1125899906842624)
          * (644898364362389 / 70368744177664))
        (8151515325540597 / 1125899906842624) 2 8151515325540597
        (by norm_num) (by norm_num) (by norm_num) (by norm_num) (by norm_num) (by norm_num)
        (lt_doubleOverflow _ (by norm_num)))
  refine ⟨?_, ?_, by norm_num⟩
  · simp only [convertCurrency_double, h1, h2, h3, h4, h5, h7]
  · simp only [convertCurrency_double, h1, h3, h6]

/-- C5 (as stated, refuted): in doubles calculateGST(31.87, 101, 'subtract')
returns a baseAmount and a gstAmount whose sum is 31.869999999999997, while
finalAmount is the input 31.87. -/
theorem calculateGST_invariant_in_doubles :
    (calculateGST_double (roundToDouble 31.87) (.finite 101) "subtract").baseAmount.add
          (calculateGST_double (roundToDouble 31.87) (.finite 101) "subtract").gstAmount
        = .finite (4485303753884303 / 140737488355328)
      ∧ (calculateGST_double (roundToDouble 31.87) (.finite 101) "subtract").finalAmount
        = .finite (8970607507768607 / 281474976710656)
      ∧ (4485303753884303 / 140737488355328 : ℚ) < 8970607507768607 / 281474976710656 := by
  have hs : ¬ ("subtract" : String) = "add" := by decide
  have h1 : roundToDouble 31.87 = .finite (8970607507768607 / 281474976710656) :=
    roundToDouble_normal (31.87)
        (8970607507768607 / 281474976710656) 4 8970607507768607
        (by norm_num) (by norm_num) (by norm_num) (by norm_num) (by norm_num) (by norm_num)
        (lt_doubleOverflow _ (by norm_num))
  have h2 : (JSNumber.finite 101).div
        (.finite 100)
      = .finite (4548635623644201 / 4503599627370496) :=
    div_finite _ _ _ (by norm_num)
      (roundToDouble_normal (101
          / 100)
        (4548635623644201 / 4503599627370496) 0 4548635623644201
        (by norm_num) (by norm_num) (by norm_num) (by norm_num) (by norm_num) (by norm_num)
        (lt_doubleOverflow _ (by norm_num)))
  have h3 : (JSNumber.finite 1).add
        (.finite (4548635623644201 / 4503599627370496))
      = .finite (1131529406376837 / 562949953421312) :=
    add_finite _ _ _
      (roundToDouble_normal_tie (1
          + (4548635623644201 / 4503599627370496))
        (1131529406376837 / 562949953421312) 1 4526117625507348
        (by norm_num) (by norm_num) (by norm_num) (by norm_num) (by norm_num) (by norm_num) (by norm_num)
        (lt_doubleOverflow _ (by norm_num)))
  have h4 : (JSNumber.finite (8970607507768607 / 281474976710656)).div
        (.finite (1131529406376837 / 562949953421312))
      = .finite (8925977619670257 / 562949953421312) :=
    div_finite _ _ _ (by norm_num)
      (roundToDouble_normal ((8970607507768607 / 281474976710656)
          / (1131529406376837 / 562949953421312))
        (8925977619670257 / 562949953421312) 3 8925977619670257
        (by norm_num) (by norm_num) (by norm_num) (by norm_num) (by norm_num) (by norm_num)
        (lt_doubleOverflow _ (by norm_num)))
  have h5 : (JSNumber.finite (8970607507768607 / 281474976710656)).sub
        (.finite (8925977619670257 / 562949953421312))
      = .finite (2253809348966739 / 140737488355328) :=
    sub_finite _ _ _
      (roundToDouble_normal_tie ((8970607507768607 / 281474976710656)
          - (8925977619670257 / 562949953421312))
        (2253809348966739 / 140737488355328) 4 4507618697933478
        (by norm_num) (by norm_num) (by norm_num) (by norm_num) (by norm_num) (by norm_num) (by norm_num)
        (lt_doubleOverflow _ (by norm_num)))
  have h6 : (JSNumber.finite (8925977619670257 / 562949953421312)).add
        (.finite (2253809348966739 / 140737488355328))
      = .finite (4485303753884303 / 140737488355328) :=
    add_finite _ _ _
      (roundToDouble_normal_tie ((8925977619670257 / 562949953421312)
          + (2253809348966739 / 140737488355328))
        (4485303753884303 / 140737488355328) 4 8970607507768606
        (by norm_num) (by norm_num) (by norm_num) (by norm_num) (by norm_num) (by norm_num) (by norm_num)
        (lt_doubleOverflow _ (by norm_num)))
  refine ⟨?_, ?_, by norm_num⟩
  · simp only [calculateGST_double, if_neg hs, h1, h2, h3, h4, h5, h6]
  · simp only [calculateGST_double, if_neg hs, h1]

/-- C7 (as stated, refuted): in doubles adding 5% to 7 and extracting 5% from
the finalAmount 7.35 returns baseAmount 6.999999999999999, not 7, and gstAmount
0.35000000000000053, not the 0.35 that add mode produced. -/
theorem calculateGST_add_extract_in_doubles :
    (calculateGST_double (calculateGST_double (.finite 7) (.finite 5) "add").finalAmount
          (.finite 5) "subtract").baseAmount
        = .finite (7881299347898367 / 1125899906842624)
      ∧ (7881299347898367 / 1125899906842624 : ℚ) < 7
      ∧ (calculateGST_double (calculateGST_double (.finite 7) (.finite 5) "add").finalAmount
          (.finite 5) "subtract").gstAmount
        = .finite (394064967394919 / 1125899906842624)
      ∧ (calculateGST_double (.finite 7) (.finite 5) "add").gstAmount
        = .finite (3152519739159347 / 9007199254740992)
      ∧ (3152519739159347 / 9007199254740992 : ℚ) < 394064967394919 / 1125899906842624 := by
  have hs : ¬ ("subtract" : String) = "add" := by decide
  have h1 : (JSNumber.finite 7).mul
        (.finite 5)
      = .finite 35 :=
    mul_finite _ _ _
      (roundToDouble_normal (7
          * 5)
        35 5 4925812092436480
        (by norm_num) (by norm_num) (by norm_num) (by norm_num) (by norm_num) (by norm_num)
        (lt_doubleOverflow _ (by norm_num)))
  have h2 : (JSNumber.finite 35).div
        (.finite 100)
      = .finite (3152519739159347 / 9007199254740992) :=
    div_finite _ _ _ (by norm_num)
      (roundToDouble_normal (35
          / 100)
        (3152519739159347 / 9007199254740992) (-2) 6305039478318694
        (by norm_num) (by norm_num) (by norm_num) (by norm_num) (by norm_num) (by norm_num)
        (lt_doubleOverflow _ (by norm_num)))
  have h3 : (JSNumber.finite 7).add
        (.finite (3152519739159347 / 9007199254740992))
      = .finite (4137682157646643 / 562949953421312) :=
    add_finite _ _ _
      (roundToDouble_normal (7
          + (3152519739159347 / 9007199254740992))
        (4137682157646643 / 562949953421312) 2 8275364315293286
        (by norm_num) (by norm_num) (by norm_num) (by norm_num) (by norm_num) (by norm_num)
        (lt_doubleOverflow _ (by norm_num)))
  have h4 : (JSNumber.finite 5).div
        (.finite 100)
      = .finite (3602879701896397 / 72057594037927936) :=
    div_finite _ _ _ (by norm_num)
      (roundToDouble_normal (5
          / 100)
        (3602879701896397 / 72057594037927936) (-5) 7205759403792794
        (by norm_num) (by norm_num) (by norm_num) (by norm_num) (by norm_num) (by norm_num)
        (lt_doubleOverflow _ (by norm_num)))
  have h5 : (JSNumber.finite 1).add
        (.finite (3602879701896397 / 72057594037927936))
      = .finite (4728779608739021 / 4503599627370496) :=
    add_finite _ _ _
      (roundToDouble_normal (1
          + (3602879701896397 / 72057594037927936))
        (4728779608739021 / 4503599627370496) 0 4728779608739021
        (by norm_num) (by norm_num) (by norm_num) (by norm_num) (by norm_num) (by norm_num)
        (lt_doubleOverflow _ (by norm_num)))
  have h6 : (JSNumber.finite (4137682157646643 / 562949953421312)).div
        (.finite (4728779608739021 / 4503599627370496))
      = .finite (7881299347898367 / 1125899906842624) :=
    div_finite _ _ _ (by norm_num)
      (roundToDouble_normal ((4137682157646643 / 562949953421312)
          / (4728779608739021 / 4503599627370496))
        (7881299347898367 / 1125899906842624) 2 7881299347898367
        (by norm_num) (by norm_num) (by norm_num) (by norm_num) (by norm_num) (by norm_num)
        (lt_doubleOverflow _ (by norm_num)))
  have h7 : (JSNumber.finite (4137682157646643 / 562949953421312)).sub
        (.finite (7881299347898367 / 1125899906842624))
      = .finite (394064967394919 / 1125899906842624) :=
    sub_finite _ _ _
      (roundToDouble_normal ((4137682157646643 / 562949953421312)
          - (7881299347898367 / 1125899906842624))
        (394064967394919 / 1125899906842624) (-2) 6305039478318704
        (by norm_num) (by norm_num) (by norm_num) (by norm_num) (by norm_num) (by norm_num)
        (lt_doubleOverflow _ (by norm_num)))
  refine ⟨?_, by norm_num, ?_, ?_, by norm_num⟩
  · simp only [calculateGST_double, if_neg hs, if_true, h1, h2, h3, h4, h5, h6]
  · simp only [calculateGST_double, if_neg hs, if_true, h1, h2, h3, h4, h5, h6, h7]
  · simp only [calculateGST_double, if_true, h1, h2]

/-- C13 (as stated, refuted): in doubles calculateBMI(1e-323, 300), a positive
weight and height, returns bmi 0: the quotient underflows. -/
theorem calculateBMI_value_in_doubles :
    roundToDouble 1e-323 = .finite (2 ^ (-1073 : ℤ))
      ∧ (0 : ℚ) < 2 ^ (-1073 : ℤ)
      ∧ (calculateBMI_double (roundToDouble 1e-323) (.finite 300)).bmi = .finite 0 := by
  have h1 : roundToDouble 1e-323 = .finite (2 ^ (-1073 : ℤ)) :=
    roundToDouble_subnormal (1e-323)
        (2 ^ (-1073 : ℤ)) 2
        (by norm_num) (by norm_num) (by norm_num) (by norm_num) (by norm_num)
        (lt_doubleOverflow _ (by norm_num))
  have h2 : (JSNumber.finite 300).div
        (.finite 100)
      = .finite 3 :=
    div_finite _ _ _ (by norm_num)
      (roundToDouble_normal (300
          / 100)
        3 1 6755399441055744
        (by norm_num) (by norm_num) (by norm_num) (by norm_num) (by norm_num) (by norm_num)
        (lt_doubleOverflow _ (by norm_num)))
  have h3 : (JSNumber.finite 3).mul
        (.finite 3)
      = .finite 9 :=
    mul_finite _ _ _
      (roundToDouble_normal (3
          * 3)
        9 3 5066549580791808
        (by norm_num) (by norm_num) (by norm_num) (by norm_num) (by norm_num) (by norm_num)
        (lt_doubleOverflow _ (by norm_num)))
  have h4 : (JSNumber.finite (2 ^ (-1073 : ℤ))).div
        (.finite 9)
      = .finite 0 :=
    div_finite _ _ _ (by norm_num)
      (roundToDouble_subnormal ((2 ^ (-1073 : ℤ))
          / 9)
        0 0
        (by norm_num) (by norm_num) (by norm_num) (by norm_num) (by norm_num)
        (lt_doubleOverflow _ (by norm_num)))
  refine ⟨h1, by norm_num, ?_⟩
  rw [calculateBMI_double_bmi]
  simp only [h1, h2, h3, h4]

/-- C14 (as stated, refuted): in doubles the validated height 1e-160 gives
calculateBMI a zero divisor: heightInMeters is 1e-162, its square underflows
to 0, and the bmi returned for a weight of 70 is Infinity. -/
theorem calculateBMI_zero_divisor_in_doubles :
    roundToDouble 1e-160 = .finite (1582914569427869 * 2 ^ (-582 : ℤ))
      ∧ (0 : ℚ) < 1582914569427869 * 2 ^ (-582 : ℤ)
      ∧ ((roundToDouble 1e-160).div (.finite 100)).mul ((roundToDouble 1e-160).div (.finite 100))
        = .finite 0
      ∧ (calculateBMI_double (.finite 70) (roundToDouble 1e-160)).bmi = .posInfinity := by
  have h1 : roundToDouble 1e-160 = .finite (1582914569427869 * 2 ^ (-582 : ℤ)) :=
    roundToDouble_normal (1e-160)
        (1582914569427869 * 2 ^ (-582 : ℤ)) (-532) 6331658277711476
        (by norm_num) (by norm_num) (by norm_num) (by norm_num) (by norm_num) (by norm_num)
        (lt_doubleOverflow _ (by norm_num))
  have h2 : (JSNumber.finite (1582914569427869 * 2 ^ (-582 : ℤ))).div
        (.finite 100)
      = .finite (8104522595470689 * 2 ^ (-591 : ℤ)) :=
    div_finite _ _ _ (by norm_num)
      (roundToDouble_normal ((1582914569427869 * 2 ^ (-582 : ℤ))
          / 100)
        (8104522595470689 * 2 ^ (-591 : ℤ)) (-539) 8104522595470689
        (by norm_num) (by norm_num) (by norm_num) (by norm_num) (by norm_num) (by norm_num)
        (lt_doubleOverflow _ (by norm_num)))
  have h3 : (JSNumber.finite (8104522595470689 * 2 ^ (-591 : ℤ))).mul
        (.finite (8104522595470689 * 2 ^ (-591 : ℤ)))
      = .finite 0 :=
    mul_finite _ _ _
      (roundToDouble_subnormal ((8104522595470689 * 2 ^ (-591 : ℤ))
          * (8104522595470689 * 2 ^ (-591 : ℤ)))
        0 0
        (by norm_num) (by norm_num) (by norm_num) (by norm_num) (by norm_num)
        (lt_doubleOverflow _ (by norm_num)))
  refine ⟨h1, by norm_num, ?_, ?_⟩
  · simp only [h1, h2, h3]
  · rw [calculateBMI_double_bmi]
    simp only [h1, h2, h3]
    simp [JSNumber.div]

/-- C4 (as stated, refuted): in doubles calculateEMI(5e-324, 0, 12), with a
positive principal, a rate of 0 and 12 months, returns emi 0, which is not
> 0: the quotient principal / tenureMonths underflows. -/
theorem calculateEMI_bounds_in_doubles :
    roundToDouble 5e-324 = .finite (2 ^ (-1074 : ℤ))
      ∧ (0 : ℚ) < 2 ^ (-1074 : ℤ)
      ∧ (calculateEMI_double (roundToDouble 5e-324) (.finite 0) 12).emi = .finite 0 := by
  have hz : ∀ b : ℚ, b ≠ 0 → (JSNumber.finite 0).div (.finite b) = .finite 0 := by
    intro b hb
    simp only [JSNumber.div, if_neg hb, zero_div, roundToDouble_zero]
  have ht : roundToDouble ((12 : ℕ) : ℚ) = .finite 12 := by
    exact_mod_cast roundToDouble_nat 12 (by norm_num)
  have h1 : roundToDouble 5e-324 = .finite (2 ^ (-1074 : ℤ)) :=
    roundToDouble_subnormal (5e-324)
        (2 ^ (-1074 : ℤ)) 1
        (by norm_num) (by norm_num) (by norm_num) (by norm_num) (by norm_num)
        (lt_doubleOverflow _ (by norm_num))
  have h2 : (JSNumber.finite (2 ^ (-1074 : ℤ))).div
        (.finite 12)
      = .finite 0 :=
    div_finite _ _ _ (by norm_num)
      (roundToDouble_subnormal ((2 ^ (-1074 : ℤ))
          / 12)
        0 0
        (by norm_num) (by norm_num) (by norm_num) (by norm_num) (by norm_num)
        (lt_doubleOverflow _ (by norm_num)))
  refine ⟨h1, by norm_num, ?_⟩
  simp only [calculateEMI_double, hz 12 (by norm_num), hz 100 (by norm_num), if_true, ht, h1,
    h2]

end FinanceCalc
